import Mathlib

/-!
Verification of the Device Connection Manager (DCM) of `d_analog.c`
(ev3dev/fatcatlab-evb-lms2012, `src/d_analog/Linuxmod_AM335x/d_analog.c`).

The per-port detection state machines (`Device3TimerInterrupt1`), the `'t'`
control-channel command handler (`Device1Write`) and the ADC scan scheduler
(`Device1TimerInterrupt1`) are shallowly embedded as pure step functions on
explicit state records.  Machine integers (UBYTE/UWORD) are modelled as `Nat`;
the raw ADC samples are 12-bit values, so none of the arithmetic that the
embedded code performs can overflow a UWORD except the one place noted in
`outputTick`, where the C modular semantics is written out explicitly.

Conditional compilation: the driver is built without `FINALB`,
`DISABLE_OLD_COLOR`, `DISABLE_FAST_DATALOG_BUFFER` or `DISABLE_PREEMPTED_VM`
defined (none of them is defined anywhere in the repository), so the embedded
code follows the corresponding `#ifndef` branches.
-/

namespace DAnalog

/-! ### Threshold constants (d_analog.c lines 43-51, 157-193, 2186-2197) -/

def IN_CONNECT_STEADY_TIME : Nat := 350
def IN_DISCONNECT_STEADY_TIME : Nat := 100

def IN1_NEAR_5V : Nat := 4800
def IN1_NEAR_PIN2 : Nat := 3100
def IN1_TOUCH_HIGH : Nat := 950
def IN1_TOUCH_LOW : Nat := 850
def IN1_NEAR_GND : Nat := 100
def IN6_NEAR_GND : Nat := 150

def OUT5_IIC_HIGH : Nat := 3700
def OUT5_IIC_LOW : Nat := 2800
def OUT5_BALANCE_HIGH : Nat := 2600
def OUT5_BALANCE_LOW : Nat := 2400
def OUT5_LIGHT_HIGH : Nat := 850
def OUT5_LIGHT_LOW : Nat := 650
def OUT5_NEAR_GND : Nat := 100
def OUT5_DUMP_HIGH : Nat := 2350
def OUT5_DUMP_LOW : Nat := 1150
def OUT5_MINITACHO_HIGH1 : Nat := 2000
def OUT5_MINITACHO_LOW1 : Nat := 1600
def OUT5_NEWTACHO_HIGH1 : Nat := 1600
def OUT5_NEWTACHO_LOW1 : Nat := 1200
def OUT5_INTELLIGENT_HIGH1 : Nat := 1150
def OUT5_INTELLIGENT_LOW1 : Nat := 850
def OUT5_INTELLIGENT_HIGH2 : Nat := 1150
def OUT5_INTELLIGENT_LOW2 : Nat := 850
def OUT5_NEWTACHO_HIGH2 : Nat := 650
def OUT5_NEWTACHO_LOW2 : Nat := 450
def OUT5_MINITACHO_HIGH2 : Nat := 450
def OUT5_MINITACHO_LOW2 : Nat := 250

def DCM_TIMER_RESOLUTION : Nat := 10
def DCM_DEVICE_RESET_TIME : Nat := 2000
def DCM_FLOAT_DELAY : Nat := 20
def DCM_LOW_DELAY : Nat := 20
def DCM_TOUCH_DELAY : Nat := 20
def DCM_CONNECT_STABLE_DELAY : Nat := IN_CONNECT_STEADY_TIME
def DCM_EVENT_STABLE_DELAY : Nat := IN_DISCONNECT_STEADY_TIME
def DCM_NXT_COLOR_TIMEOUT : Nat := 500
def DCM_NXT_COLOR_INIT_DELAY : Nat := 100
def DCM_NXT_COLOR_HIGH_TIME : Nat := 20

/-- `NXTCOLOR_BYTES = (12 * 4 + 3 * 2)` (d_analog.c line 2217). -/
def NXTCOLOR_BYTES : Nat := 12 * 4 + 3 * 2

/-- Modelled from the spec: `ADC_REF` (full-scale reference in mV) comes from
the header `lms2012/source/lms2012.h`, which is not among the provided source
files; the spec treats thresholds as millivolt constants against a 5000 mV
reference, and the inline comment `//<3931` at d_analog.c line 2552 pins
`VtoC(4800) = 3931`, which forces `ADC_REF = 5000` and `ADC_RES = 4095`. -/
def ADC_REF : Nat := 5000

/-- Modelled from the spec: `ADC_RES`, the 12-bit full-scale count, from the
missing `lms2012.h` (see `ADC_REF`). -/
def ADC_RES : Nat := 4095

/-- Modelled from the spec: `VtoC(V)`, millivolts to ADC counts, from the
missing `lms2012.h`; integer-truncating, pinned by the `//<3931` comment at
d_analog.c line 2552 (`VtoC(IN1_NEAR_5V) = 4800 * 4095 / 5000 = 3931`). -/
def VtoC (v : Nat) : Nat := v * ADC_RES / ADC_REF

/-- Modelled from the spec: `CtoV(C)`, ADC counts to millivolts, the inverse
conversion of `VtoC` from the missing `lms2012.h`. -/
def CtoV (c : Nat) : Nat := c * ADC_REF / ADC_RES

/-! ### Enumerations

`DCM_STATE` (d_analog.c lines 1401-1427).  The device-type and
connection-type byte codes (`TYPE_*`, `CONN_*`) come from the missing
`lms2012.h`; the claims never depend on their numeric values, so they are
embedded as abstract enumerations listing exactly the constants this driver
uses. -/

inductive DcmState where
  | DCM_INIT
  | DCM_FLOATING_DELAY
  | DCM_FLOATING
  | DCM_WAITING_FOR_PIN5_LOW
  | DCM_WAITING_FOR_PIN6_LOW
  | DCM_CONNECTION
  | DCM_PIN2_LOW
  | DCM_NXT_TOUCH_CHECK
  | DCM_NXT_COLOR_INIT
  | DCM_NXT_COLOR_WAIT
  | DCM_NXT_COLOR_START
  | DCM_NXT_COLOR_BUSY
  | DCM_CONNECTED_WAITING_FOR_PIN2_HIGH
  | DCM_PIN1_LOADED
  | DCM_CONNECTED_WAITING_FOR_PIN1_TO_FLOAT
  | DCM_PIN6_HIGH
  | DCM_CONNECTED_WAITING_FOR_PIN6_LOW
  | DCM_PIN5_LOW
  | DCM_CONNECTED_WAITING_FOR_PIN5_HIGH
  | DCM_CONNECTED_WAITING_FOR_PORT_OPEN
  | DCM_DISABLED
deriving DecidableEq, Repr

/-- Modelled from the spec: device-type byte codes (`TYPE_*`) of the missing
`lms2012.h`, as an abstract enumeration of the constants `d_analog.c` uses. -/
inductive DevType where
  | TYPE_NONE
  | TYPE_ERROR
  | TYPE_UNKNOWN
  | TYPE_NXT_TOUCH
  | TYPE_NXT_LIGHT
  | TYPE_NXT_SOUND
  | TYPE_NXT_COLOR
  | TYPE_NXT_IIC
  | TYPE_NXT_TEST
  | TYPE_TACHO
  | TYPE_MINITACHO
  | TYPE_NEWTACHO
  | TYPE_TOUCH
deriving DecidableEq, Repr

/-- Modelled from the spec: connection-type byte codes (`CONN_*`) of the
missing `lms2012.h`, as an abstract enumeration of the constants
`d_analog.c` uses. -/
inductive ConnType where
  | CONN_NONE
  | CONN_ERROR
  | CONN_NXT_COLOR
  | CONN_NXT_IIC
  | CONN_NXT_DUMB
  | CONN_INPUT_UART
  | CONN_INPUT_DUMB
  | CONN_OUTPUT_DUMB
  | CONN_OUTPUT_INTELLIGENT
  | CONN_OUTPUT_TACHO
deriving DecidableEq, Repr

/-! ### Input-port DCM (`Device3TimerInterrupt1`, input half, lines 2506-2953)

Pin bit positions come from `enum InputPortPins` (lines 365-374):
`INPUT_PORT_PIN1 = 0`, `INPUT_PORT_PIN2 = 1`, `INPUT_PORT_PIN5 = 2`,
`INPUT_PORT_PIN6 = 3`, `INPUT_PORT_BUF = 4`, `INPUT_PORT_VALUE = 6`. -/

/-- Per-tick environment of one input port: the digital pin levels
(`PINRead`), the raw pin-1 sample `(*pAnalog).InPin1[Port]`, and the state of
the concurrently running NXT color engine as the DCM tick observes it
(`NxtColorCommReady`, `NxtColorBuffer`, `NxtcolorLatchedCmd` is written by the
ADC interrupt). -/
structure InEnv where
  pin5 : Bool
  pin6 : Bool
  inPin1 : Nat
  colorReady : Bool
  colorBuffer : List Nat
  latchedCmd : Nat
deriving DecidableEq, Repr

/-- One input port's mutable record: the `INPORT` struct fields (lines
1043-1054; the debug-only `OldState` is dropped) together with the per-port
slices of the shared results table that this state machine writes
(`(*pAnalog).InDcm/InConn/NxtCol`) and of the color-engine globals it writes
(`NxtColorActive`, `NxtcolorCmd`, and `NxtColorState`, the engine sub-state
that `NxtColorCommStart`/`NxtColorCommStop` set to 1 resp. 0).  The
fast-datalog ring-buffer bookkeeping (`Actual`/`LogIn`/`LogOut`, reset in
`DCM_CONNECTION`) indexes buffers of the size `DEVICE_LOGBUF_SIZE` from the
missing `lms2012.h` and is pure logging, so it is not tracked. -/
structure InPort where
  Value : Nat
  Connected : Bool
  Cmd : Nat
  State : DcmState
  Event : Nat
  Timer : Nat
  FSMEnabled : Bool
  InDcm : DevType
  InConn : ConnType
  NxtCol : List Nat
  NxtColorActive : Bool
  NxtcolorCmd : Nat
  NxtColorState : Nat
deriving DecidableEq, Repr

/-- `InputPortDefault` (lines 1458-1468): `{0,0,0,DCM_INIT,-1,0,0,1}`,
together with the reset values of the modelled shared slices. -/
def InputPortDefault : InPort :=
  { Value := 0, Connected := false, Cmd := 0, State := .DCM_INIT,
    Event := 0, Timer := 0, FSMEnabled := true,
    InDcm := .TYPE_NONE, InConn := .CONN_NONE,
    NxtCol := List.replicate NXTCOLOR_BYTES 0,
    NxtColorActive := false, NxtcolorCmd := 0, NxtColorState := 0 }

/-- The event mask computed in `DCM_FLOATING` (lines 2545-2566).  The pin-2
test is compiled out for this board: the source reads `if (!1)` (line 2547,
original `PINRead(Port,INPUT_PORT_PIN2)` commented out), so the pin-2 branch
is `if False`. -/
def inputEvent (e : InEnv) : Nat :=
  let ev : Nat := 0
  let ev := if False then ev ||| (1 <<< 1) else ev
  let ev := if e.inPin1 < VtoC IN1_NEAR_5V then ev ||| (1 <<< 6) else ev
  let ev := if !e.pin5 then ev ||| (1 <<< 2) else ev
  let ev := if e.pin6 then ev ||| (1 <<< 3) else ev
  ev

/-- The `DCM_PIN2_LOW` classification ladder (lines 2637-2723).  `s` already
carries the updates made at the top of the case (`Connected`, `Timer`,
default next state); the pin drives of `InputPortFloat` are hardware outputs
with no modelled state. -/
def pin2LowLadder (s : InPort) (e : InEnv) : InPort :=
  if s.Event &&& (1 <<< 2) = 0 ∧ s.Event &&& (1 <<< 3) ≠ 0 then
    if e.inPin1 < VtoC IN1_NEAR_GND then
      { s with InDcm := .TYPE_NXT_COLOR, InConn := .CONN_NXT_COLOR,
               State := .DCM_NXT_COLOR_INIT }
    else
      { s with InDcm := .TYPE_NXT_IIC, InConn := .CONN_NXT_IIC }
  else if s.Event &&& (1 <<< 2) ≠ 0 then
    if s.Event &&& (1 <<< 3) ≠ 0 then
      { s with InDcm := .TYPE_NXT_TEST, InConn := .CONN_NXT_DUMB }
    else
      { s with InDcm := .TYPE_NXT_LIGHT, InConn := .CONN_NXT_DUMB }
  else if e.inPin1 < VtoC IN1_NEAR_GND then
    { s with InDcm := .TYPE_NXT_COLOR, InConn := .CONN_NXT_COLOR,
             State := .DCM_NXT_COLOR_INIT }
  else if e.inPin1 > VtoC IN1_NEAR_5V then
    { s with InDcm := .TYPE_NXT_TOUCH, InConn := .CONN_NXT_DUMB }
  else if VtoC IN1_TOUCH_LOW < e.inPin1 ∧ e.inPin1 < VtoC IN1_TOUCH_HIGH then
    { s with Timer := 0, Value := e.inPin1, State := .DCM_NXT_TOUCH_CHECK }
  else
    { s with InDcm := .TYPE_NXT_SOUND, InConn := .CONN_NXT_DUMB }

/-- The per-state switch of one input port (lines 2513-2943).  Timer
increments model the C pre-increments `++(InputPort[Port].Timer)`; where the
source tests `>=` against a delay the incremented value is kept, exactly as
the C side effect does.  States that have no case in the input switch fall to
`default :` which forces `DCM_INIT`. -/
def inputStateStep (s : InPort) (e : InEnv) : InPort :=
  match s.State with
  | .DCM_INIT =>
      { s with NxtColorActive := false, NxtColorState := 0,
               InDcm := .TYPE_NONE, InConn := .CONN_NONE,
               Timer := 0, Event := 0, State := .DCM_FLOATING_DELAY }
  | .DCM_FLOATING_DELAY =>
      if s.Timer + 1 ≥ DCM_FLOAT_DELAY / DCM_TIMER_RESOLUTION then
        { s with Timer := 0, State := .DCM_FLOATING }
      else
        { s with Timer := s.Timer + 1 }
  | .DCM_FLOATING =>
      let ev := inputEvent e
      let s := if s.Event ≠ ev then { s with Event := ev, Timer := 0 } else s
      if s.Event ≠ 0 then
        if s.Timer + 1 ≥ DCM_CONNECT_STABLE_DELAY / DCM_TIMER_RESOLUTION then
          { s with Timer := s.Timer + 1, State := .DCM_CONNECTION }
        else
          { s with Timer := s.Timer + 1 }
      else
        s
  | .DCM_CONNECTION =>
      if s.Event &&& (1 <<< 1) ≠ 0 then
        { s with State := .DCM_PIN2_LOW }
      else if s.Event &&& (1 <<< 6) ≠ 0 then
        { s with State := .DCM_PIN1_LOADED }
      else if s.Event &&& (1 <<< 3) ≠ 0 then
        { s with State := .DCM_PIN6_HIGH }
      else if s.Event &&& (1 <<< 2) ≠ 0 then
        { s with State := .DCM_PIN5_LOW }
      else
        { s with State := .DCM_INIT }
  | .DCM_PIN2_LOW =>
      pin2LowLadder
        { s with Connected := true, Timer := 0,
                 State := .DCM_CONNECTED_WAITING_FOR_PIN2_HIGH } e
  | .DCM_NXT_TOUCH_CHECK =>
      if s.Timer + 1 ≥ DCM_TOUCH_DELAY / DCM_TIMER_RESOLUTION then
        if e.inPin1 + 10 > s.Value ∧ e.inPin1 < s.Value + 10 then
          { s with Timer := s.Timer + 1,
                   State := .DCM_CONNECTED_WAITING_FOR_PIN2_HIGH,
                   InDcm := .TYPE_NXT_TOUCH, InConn := .CONN_NXT_DUMB }
        else
          { s with Timer := s.Timer + 1,
                   State := .DCM_CONNECTED_WAITING_FOR_PIN2_HIGH,
                   InDcm := .TYPE_NXT_SOUND, InConn := .CONN_NXT_DUMB }
      else
        { s with Timer := s.Timer + 1 }
  | .DCM_NXT_COLOR_INIT =>
      { s with NxtcolorCmd := 0, NxtColorState := 0,
               Timer := 0, State := .DCM_NXT_COLOR_WAIT }
  | .DCM_NXT_COLOR_WAIT =>
      if s.NxtcolorCmd = e.latchedCmd then
        { s with NxtColorState := 1, State := .DCM_NXT_COLOR_BUSY }
      else
        s
  | .DCM_NXT_COLOR_START =>
      { s with State := .DCM_INIT }
  | .DCM_NXT_COLOR_BUSY =>
      let s :=
        if e.colorReady then
          { s with NxtcolorCmd := s.Cmd, Timer := 0,
                   State := .DCM_CONNECTED_WAITING_FOR_PIN2_HIGH,
                   NxtCol := e.colorBuffer.take NXTCOLOR_BYTES,
                   NxtColorState := 0, NxtColorActive := true }
        else
          s
      if s.Timer + 1 > DCM_NXT_COLOR_TIMEOUT / DCM_TIMER_RESOLUTION then
        { s with Timer := 0, State := .DCM_CONNECTED_WAITING_FOR_PIN2_HIGH,
                 NxtColorState := 0 }
      else
        { s with Timer := s.Timer + 1 }
  | .DCM_CONNECTED_WAITING_FOR_PIN2_HIGH =>
      if True then
        if s.Timer + 1 ≥ DCM_EVENT_STABLE_DELAY / DCM_TIMER_RESOLUTION then
          { s with Timer := s.Timer + 1, Connected := false, State := .DCM_INIT }
        else
          { s with Timer := s.Timer + 1 }
      else
        { s with Timer := 0 }
  | .DCM_PIN1_LOADED =>
      let s :=
        if e.inPin1 > VtoC IN1_NEAR_PIN2 then
          { s with InDcm := .TYPE_ERROR, InConn := .CONN_ERROR }
        else if e.inPin1 < VtoC IN1_NEAR_GND then
          { s with InDcm := .TYPE_UNKNOWN, InConn := .CONN_INPUT_UART }
        else
          { s with InDcm := .TYPE_UNKNOWN, InConn := .CONN_INPUT_DUMB }
      { s with Connected := true, Timer := 0,
               State := .DCM_CONNECTED_WAITING_FOR_PIN1_TO_FLOAT }
  | .DCM_CONNECTED_WAITING_FOR_PIN1_TO_FLOAT =>
      if e.inPin1 > VtoC IN1_NEAR_5V then
        if s.Timer + 1 ≥ DCM_EVENT_STABLE_DELAY / DCM_TIMER_RESOLUTION then
          { s with Timer := s.Timer + 1, Connected := false, State := .DCM_INIT }
        else
          { s with Timer := s.Timer + 1 }
      else
        { s with Timer := 0 }
  | .DCM_PIN6_HIGH =>
      { s with InDcm := .TYPE_NXT_IIC, InConn := .CONN_NXT_IIC,
               Connected := true, Timer := 0,
               State := .DCM_CONNECTED_WAITING_FOR_PIN6_LOW }
  | .DCM_CONNECTED_WAITING_FOR_PIN6_LOW =>
      if !e.pin6 then
        if s.Timer + 1 ≥ DCM_EVENT_STABLE_DELAY / DCM_TIMER_RESOLUTION then
          { s with Timer := s.Timer + 1, Connected := false, State := .DCM_INIT }
        else
          { s with Timer := s.Timer + 1 }
      else
        { s with Timer := 0 }
  | .DCM_PIN5_LOW =>
      { s with InDcm := .TYPE_ERROR, InConn := .CONN_ERROR,
               Connected := true, Timer := 0,
               State := .DCM_CONNECTED_WAITING_FOR_PIN5_HIGH }
  | .DCM_CONNECTED_WAITING_FOR_PIN5_HIGH =>
      if e.pin5 then
        if s.Timer + 1 ≥ DCM_EVENT_STABLE_DELAY / DCM_TIMER_RESOLUTION then
          { s with Timer := s.Timer + 1, Connected := false, State := .DCM_INIT }
        else
          { s with Timer := s.Timer + 1 }
      else
        { s with Timer := 0 }
  | .DCM_DISABLED =>
      if s.FSMEnabled = false then
        { s with Timer := 0, Connected := true }
      else
        { s with State := .DCM_INIT }
  | .DCM_WAITING_FOR_PIN5_LOW => { s with State := .DCM_INIT }
  | .DCM_WAITING_FOR_PIN6_LOW => { s with State := .DCM_INIT }
  | .DCM_CONNECTED_WAITING_FOR_PORT_OPEN => { s with State := .DCM_INIT }

/-- One DCM tick of one input port: the `FSMEnabled` pre-check (lines
2508-2511) forces `DCM_DISABLED` before the switch runs. -/
def inputTick (s : InPort) (e : InEnv) : InPort :=
  let s := if s.FSMEnabled = false then { s with State := .DCM_DISABLED } else s
  inputStateStep s e

/-- The state of one input port after `n` DCM ticks from `s`, the `k`-th tick
reading environment `es k`. -/
def inputRunN (s : InPort) (es : Nat → InEnv) : Nat → InPort
  | 0 => s
  | n + 1 => inputTick (inputRunN s es n) (es n)

/-! ### Output-port DCM (`Device3TimerInterrupt1`, output half, lines 2957-3249)

Pin bit positions come from `enum OutputPortPins` (lines 387-396):
`OUTPUT_PORT_PIN6 = 4`, `OUTPUT_PORT_VALUE = 6`. -/

/-- Per-tick environment of one output port: the digital pin-6 level
(`POUTRead(Port,OUTPUT_PORT_PIN6)`) and the raw pin-5 sample
`(*pAnalog).OutPin5[Port]` (12-bit ADC counts). -/
structure OutEnv where
  pin6 : Bool
  outPin5 : Nat
deriving DecidableEq, Repr

/-- One output port's mutable record: the `OUTPORT` struct fields (lines
1060-1072; debug-only `OldState` and the unused `Code`/`Type` dropped)
together with the per-port slices of the results table this state machine
writes (`(*pAnalog).OutDcm/OutConn/OutPin5Low`). -/
structure OutPort where
  Value5Float : Nat
  Value5Low : Nat
  Connected : Bool
  State : DcmState
  Event : Nat
  Timer : Nat
  OutDcm : DevType
  OutConn : ConnType
  OutPin5Low : Nat
deriving DecidableEq, Repr

/-- `OutputPortDefault` (lines 1471-1482). -/
def OutputPortDefault : OutPort :=
  { Value5Float := 0, Value5Low := 0, Connected := false, State := .DCM_INIT,
    Event := 0, Timer := 0, OutDcm := .TYPE_NONE, OutConn := .CONN_NONE,
    OutPin5Low := 0 }

/-- The event mask computed in the output `DCM_FLOATING` (lines 2988-3007).
`FINALB` is not defined, so the pin-6 event is `!(POUTRead(...))`. -/
def outputEvent (e : OutEnv) : Nat :=
  let ev : Nat := 0
  let ev := if !e.pin6 then ev ||| (1 <<< 4) else ev
  let ev := if e.outPin5 < VtoC OUT5_BALANCE_LOW ∨ e.outPin5 > VtoC OUT5_BALANCE_HIGH
            then ev ||| (1 <<< 6) else ev
  ev

/-- The equal-snapshot ("direct") classification ladder of the output
`DCM_CONNECTION` case (lines 3055-3138), run when `Value5Float` equals
`Value5Low` within tolerance.  `s` already carries
`State = DCM_CONNECTED_WAITING_FOR_PORT_OPEN`; the active-probe branch
overwrites it with `DCM_WAITING_FOR_PIN5_LOW` (the `POUTHigh` pin drive is a
hardware output). -/
def outConnectionDirect (s : OutPort) : OutPort :=
  if OUT5_BALANCE_LOW ≤ s.Value5Float ∧ s.Value5Float ≤ OUT5_BALANCE_HIGH ∧
      s.Event &&& (1 <<< 4) ≠ 0 then
    { s with OutDcm := .TYPE_ERROR, OutConn := .CONN_ERROR, Connected := true }
  else if s.Value5Float < OUT5_NEAR_GND then
    { s with OutDcm := .TYPE_ERROR, OutConn := .CONN_ERROR, Connected := true }
  else if OUT5_LIGHT_LOW ≤ s.Value5Float ∧ s.Value5Float ≤ OUT5_LIGHT_HIGH then
    { s with OutDcm := .TYPE_ERROR, OutConn := .CONN_ERROR, Connected := true }
  else if OUT5_IIC_LOW ≤ s.Value5Float ∧ s.Value5Float ≤ OUT5_IIC_HIGH then
    { s with OutDcm := .TYPE_ERROR, OutConn := .CONN_ERROR, Connected := true }
  else if s.Value5Float < OUT5_BALANCE_LOW then
    let s :=
      if OUT5_DUMP_LOW ≤ s.Value5Float ∧ s.Value5Float < OUT5_DUMP_HIGH then
        { s with OutPin5Low := s.Value5Float,
                 OutDcm := .TYPE_UNKNOWN, OutConn := .CONN_OUTPUT_DUMB }
      else if OUT5_INTELLIGENT_LOW2 ≤ s.Value5Float ∧
                s.Value5Float < OUT5_INTELLIGENT_HIGH2 then
        { s with OutDcm := .TYPE_UNKNOWN, OutConn := .CONN_OUTPUT_INTELLIGENT }
      else if OUT5_NEWTACHO_LOW2 ≤ s.Value5Float ∧
                s.Value5Float < OUT5_NEWTACHO_HIGH2 then
        { s with OutDcm := .TYPE_NEWTACHO, OutConn := .CONN_OUTPUT_TACHO }
      else if OUT5_MINITACHO_LOW2 ≤ s.Value5Float ∧
                s.Value5Float < OUT5_MINITACHO_HIGH2 then
        { s with OutDcm := .TYPE_MINITACHO, OutConn := .CONN_OUTPUT_TACHO }
      else
        { s with OutDcm := .TYPE_TACHO, OutConn := .CONN_OUTPUT_TACHO }
    { s with Connected := true }
  else
    { s with State := .DCM_WAITING_FOR_PIN5_LOW }

/-- The per-state switch of one output port (lines 2960-3239).  In
`DCM_CONNECTION`, `Tmp` is a `UWORD`, so `ADC_REF + Value5Float - Value5Low`
is reduced mod 2^16 exactly as the C unsigned conversion does (both stored
values are `CtoV` of 12-bit counts, hence at most 5000, so the wrap never
fires in a real run, but the embedding keeps the modular form). -/
def outputStateStep (s : OutPort) (e : OutEnv) : OutPort :=
  match s.State with
  | .DCM_INIT =>
      { s with OutDcm := .TYPE_NONE, OutConn := .CONN_NONE,
               Timer := 0, Event := 0, State := .DCM_FLOATING_DELAY }
  | .DCM_FLOATING_DELAY =>
      if s.Timer + 1 ≥ DCM_FLOAT_DELAY / DCM_TIMER_RESOLUTION then
        { s with Timer := 0, State := .DCM_FLOATING }
      else
        { s with Timer := s.Timer + 1 }
  | .DCM_FLOATING =>
      let ev := outputEvent e
      let s := if s.Event ≠ ev then { s with Event := ev, Timer := 0 } else s
      if s.Event ≠ 0 then
        if s.Timer + 1 ≥ DCM_CONNECT_STABLE_DELAY / DCM_TIMER_RESOLUTION then
          { s with Value5Float := CtoV e.outPin5, Timer := 0,
                   State := .DCM_WAITING_FOR_PIN6_LOW }
        else
          { s with Timer := s.Timer + 1 }
      else
        s
  | .DCM_WAITING_FOR_PIN6_LOW =>
      if s.Timer + 1 ≥ DCM_LOW_DELAY / DCM_TIMER_RESOLUTION then
        { s with Timer := s.Timer + 1, Value5Low := CtoV e.outPin5,
                 State := .DCM_CONNECTION }
      else
        { s with Timer := s.Timer + 1 }
  | .DCM_CONNECTION =>
      let s := { s with State := .DCM_CONNECTED_WAITING_FOR_PORT_OPEN }
      let tmp := (ADC_REF + s.Value5Float + 2 ^ 16 - s.Value5Low) % 2 ^ 16
      let s :=
        if ADC_REF - 50 < tmp ∧ tmp < ADC_REF + 50 then
          outConnectionDirect s
        else if OUT5_NEAR_GND < s.Value5Low ∧ s.Value5Low < OUT5_BALANCE_LOW then
          { s with OutPin5Low := s.Value5Low,
                   OutDcm := .TYPE_UNKNOWN, OutConn := .CONN_OUTPUT_DUMB,
                   Connected := true }
        else
          { s with OutDcm := .TYPE_ERROR, OutConn := .CONN_ERROR,
                   Connected := true }
      { s with Timer := 0 }
  | .DCM_WAITING_FOR_PIN5_LOW =>
      if s.Timer + 1 ≥ DCM_LOW_DELAY / DCM_TIMER_RESOLUTION then
        let v := CtoV e.outPin5
        let s := { s with Timer := s.Timer + 1, Value5Low := v }
        let s :=
          if OUT5_NEWTACHO_LOW1 ≤ v ∧ v < OUT5_NEWTACHO_HIGH1 then
            { s with OutDcm := .TYPE_NEWTACHO, OutConn := .CONN_OUTPUT_TACHO }
          else if OUT5_MINITACHO_LOW1 ≤ v ∧ v < OUT5_MINITACHO_HIGH1 then
            { s with OutDcm := .TYPE_MINITACHO, OutConn := .CONN_OUTPUT_TACHO }
          else
            { s with OutDcm := .TYPE_TACHO, OutConn := .CONN_OUTPUT_TACHO }
        { s with Connected := true,
                 State := .DCM_CONNECTED_WAITING_FOR_PORT_OPEN }
      else
        { s with Timer := s.Timer + 1 }
  | .DCM_CONNECTED_WAITING_FOR_PORT_OPEN =>
      let s := if e.outPin5 < VtoC OUT5_BALANCE_LOW ∨ e.outPin5 > VtoC OUT5_BALANCE_HIGH
               then { s with Timer := 0 } else s
      let s := if !e.pin6 then { s with Timer := 0 } else s
      if s.Timer + 1 ≥ DCM_EVENT_STABLE_DELAY / DCM_TIMER_RESOLUTION then
        { s with Timer := s.Timer + 1, Connected := false, State := .DCM_INIT }
      else
        { s with Timer := s.Timer + 1 }
  | _ => { s with State := .DCM_INIT }

/-- One DCM tick of one output port (the output switch has no
`FSMEnabled` pre-check). -/
def outputTick (s : OutPort) (e : OutEnv) : OutPort :=
  outputStateStep s e

/-! ### The `'t'` control-channel command (`Device1Write`, lines 1592-1645) -/

/-- Modelled from the spec: the per-port command characters of a `'t'` write
are the `CONN_*` byte codes of the missing `lms2012.h` (plus `'-'` and
anything unrecognized), so they are embedded as an enumeration mirroring the
`switch (Char)` cases. -/
inductive TChar where
  | dash
  | connNxtIic
  | connNxtDumb
  | connInputDumb
  | connNone
  | other
deriving DecidableEq, Repr

/-- The body of the `'t'` per-port loop (lines 1594-1644): skip a port that
is not connected, skip a port whose auto-id FSM is enabled, otherwise force
the (device type, connection type) pair selected by the command character. -/
def tCommandPort (s : InPort) (c : TChar) : InPort :=
  if s.Connected = false then s
  else if s.FSMEnabled = true then s
  else
    match c with
    | .dash => s
    | .connNxtIic => { s with InDcm := .TYPE_NXT_IIC, InConn := .CONN_NXT_IIC }
    | .connNxtDumb => { s with InDcm := .TYPE_NXT_LIGHT, InConn := .CONN_NXT_DUMB }
    | .connInputDumb => { s with InDcm := .TYPE_TOUCH, InConn := .CONN_INPUT_DUMB }
    | .connNone => { s with InDcm := .TYPE_NONE, InConn := .CONN_NONE }
    | .other => s

/-! ### ADC scan scheduler (`Device1TimerInterrupt1`, lines 1194-1389)

Schedule tables from lines 1115-1177.  `INPUTS = 4` and
`INPUTADC = 12 + 4 = 16` (lines 413-418; `INPUTS` itself is the input-port
count from the missing `lms2012.h`, fixed to 4 by the four-element
initializers such as `NxtColorState[INPUTS] = {0,0,0,0}` at line 2225). -/

def INPUTS : Nat := 4
def INPUTADC : Nat := 16
def SCHEMESIZE1 : Nat := 10
def SCHEMESIZE2 : Nat := 15

def MuxSetup1 : List Nat := [0x00, 0x01, 0x02, 0x03, 0x04, 0x05, 0x06, 0x07, 0x20, 0x20]
def Reading1 : List Nat := [0x80, 0x20, 0x00, 0x01, 0x02, 0x03, 0x04, 0x05, 0x06, 0x07]
def NextTime1 : List Nat := [0x00, 0x00, 0x00, 0x01, 0x00, 0x00, 0x00, 0x02, 0x00, 0x01]

def MuxSetup2 : List Nat :=
  [0x13, 0x00, 0x01, 0x02, 0x10, 0x03, 0x04, 0x05, 0x11, 0x06, 0x07, 0x20, 0x12, 0x20, 0x20]
def Reading2 : List Nat :=
  [0x80, 0x20, 0x13, 0x00, 0x01, 0x02, 0x10, 0x03, 0x04, 0x05, 0x11, 0x06, 0x07, 0x80, 0x12]
def ClockHigh2 : List Nat :=
  [0x00, 0x01, 0x00, 0x00, 0x00, 0x00, 0x00, 0x00, 0x00, 0x02, 0x00, 0x00, 0x00, 0x00, 0x00]
def ClockLow2 : List Nat :=
  [0x00, 0x00, 0x00, 0x00, 0x00, 0x01, 0x00, 0x00, 0x00, 0x00, 0x00, 0x00, 0x00, 0x01, 0x00]
def NextTime2 : List Nat :=
  [0x00, 0x00, 0x00, 0x01, 0x00, 0x00, 0x00, 0x01, 0x00, 0x00, 0x00, 0x02, 0x00, 0x00, 0x01]

/-- Per-tick environment of the ADC scheduler: `spi k` is the raw `UWORD`
returned by the `k`-th `SpiUpdate` exchange of this timer tick (the bodies
apply the `& 0x0FFF` mask of lines 1247 and 1306 themselves). -/
structure AdcEnv where
  spi : Nat → Nat

/-- The scheduler's mutable state: the globals of lines 1182-1190 plus the
slices of the shared analog table the interrupt writes.  `pInputs` is the
16-slot raw-readings array the schedule stores into, `NxtColADRaw` the
per-port color-session ADC slots used by scheme 2.  The fast-datalog ring
buffers (`(*pAnalog).Pin1/Pin6/Actual/LogIn/LogOut`, rotated in the
end-of-pass block for ports without an active color session) have the size
`DEVICE_LOGBUF_SIZE` from the missing `lms2012.h` and are pure logging
bookkeeping, so they are not tracked. -/
structure AdcState where
  Color : Bool
  NxtPointer : Nat
  InputPoint1 : Nat
  InputPoint2 : Nat
  NxtColorActive : List Bool
  Nxtcolor : List Bool
  NxtcolorCmd : List Nat
  NxtcolorLatchedCmd : List Nat
  pInputs : List Nat
  NxtColADRaw : List (List Nat)
  Updated : List Bool
  PreemptMilliSeconds : Nat
deriving Repr

/-- One pass of the scheme-1 do-while body (lines 1218-1250): store the
masked SPI response where `Reading1[p]` directs (`0x80` discards, `0x20`
targets the rotating power-rail slot `InputPoint1`, a low nibble targets that
raw slot).  The `MuxSetup1` lookup only forms the outgoing SPI command word,
which has no modelled state. -/
def adcBody1 (st : AdcState) (e : AdcEnv) (i p : Nat) : AdcState :=
  let data := e.spi i % 2 ^ 12
  let r := Reading1.getD p 0
  if r &&& 0x20 ≠ 0 then
    { st with pInputs := st.pInputs.set st.InputPoint1 data,
              InputPoint1 := if st.InputPoint1 + 1 ≥ INPUTADC then 8
                             else st.InputPoint1 + 1 }
  else if r &&& 0xF0 = 0 then
    { st with pInputs := st.pInputs.set r data }
  else
    st

/-- One pass of the scheme-2 do-while body (lines 1263-1332): as scheme 1,
with `0x10` directing the sample into the active color session's `ADRaw`
slot `Reading2[p] &&& 0x03` of port `InputPoint2`.  The color-protocol clock
edges driven from `ClockHigh2`/`ClockLow2` are pin drives (hardware outputs)
with no modelled state. -/
def adcBody2 (st : AdcState) (e : AdcEnv) (i p : Nat) : AdcState :=
  let data := e.spi i % 2 ^ 12
  let r := Reading2.getD p 0
  if r &&& 0x20 ≠ 0 then
    { st with pInputs := st.pInputs.set st.InputPoint1 data,
              InputPoint1 := if st.InputPoint1 + 1 ≥ INPUTADC then 8
                             else st.InputPoint1 + 1 }
  else if r &&& 0x10 ≠ 0 then
    let slot := (st.NxtColADRaw.getD st.InputPoint2 []).set (r &&& 0x03) data
    { st with NxtColADRaw := st.NxtColADRaw.set st.InputPoint2 slot }
  else if r &&& 0xF0 = 0 then
    { st with pInputs := st.pInputs.set r data }
  else
    st

/-- The scheme-1 do-while loop (lines 1218-1251): run entries from pointer
`p` until the entry just consumed has a nonzero `NextTime1`, returning the
new state and the post-increment pointer.  The C loop always terminates
because `NextTime1[SCHEMESIZE1-1] ≠ 0`; the structural `fuel` (instantiated
with `SCHEMESIZE1`) only makes that termination syntactic. -/
def adcLoop1 (e : AdcEnv) : Nat → AdcState → Nat → Nat → AdcState × Nat
  | 0, st, p, _ => (st, p + 1)
  | fuel + 1, st, p, i =>
      let st := adcBody1 st e i p
      let p := p + 1
      if NextTime1.getD (p - 1) 0 = 0 then adcLoop1 e fuel st p (i + 1)
      else (st, p)

/-- The scheme-2 do-while loop (lines 1263-1334), as `adcLoop1`. -/
def adcLoop2 (e : AdcEnv) : Nat → AdcState → Nat → Nat → AdcState × Nat
  | 0, st, p, _ => (st, p + 1)
  | fuel + 1, st, p, i =>
      let st := adcBody2 st e i p
      let p := p + 1
      if NextTime2.getD (p - 1) 0 = 0 then adcLoop2 e fuel st p (i + 1)
      else (st, p)

/-- The end-of-pass housekeeping block (lines 1344-1386), entered only when
the schedule pointer has wrapped to 0: re-evaluate `Color` from the ports'
`NxtColorActive` flags, latch `Nxtcolor`, mark every port updated, and latch
the color command of port `InputPoint2`.  (The per-port datalog ring
rotation for inactive ports is untracked logging, see `AdcState`.) -/
def adcEndOfPass (s : AdcState) : AdcState :=
  { s with Color := s.NxtColorActive.any id,
           Nxtcolor := s.NxtColorActive,
           Updated := List.replicate INPUTS true,
           NxtcolorLatchedCmd :=
             s.NxtcolorLatchedCmd.set s.InputPoint2
               (s.NxtcolorCmd.getD s.InputPoint2 0) }

/-- One ADC scheduler timer tick (lines 1194-1389).  Returns the new state
and the schedule the tick ran (`false` = scheme 1, `true` = scheme 2, chosen
by `Color` at entry).  The leading `NxtPointer == 0` block advances the
color-slot port `InputPoint2` and the preemption counter; the trailing block
runs `adcEndOfPass` when the pointer has wrapped. -/
def adcTick (s : AdcState) (e : AdcEnv) : AdcState × Bool :=
  let s :=
    if s.NxtPointer = 0 then
      { s with InputPoint2 := if s.InputPoint2 + 1 ≥ INPUTS then 0
                              else s.InputPoint2 + 1,
               PreemptMilliSeconds := s.PreemptMilliSeconds + 1 }
    else s
  let sched := s.Color
  let run :=
    if sched then adcLoop2 e SCHEMESIZE2 s s.NxtPointer 0
    else adcLoop1 e SCHEMESIZE1 s s.NxtPointer 0
  let p := if run.2 ≥ (if sched then SCHEMESIZE2 else SCHEMESIZE1) then 0 else run.2
  let s := { run.1 with NxtPointer := p }
  let s := if p = 0 then adcEndOfPass s else s
  (s, sched)

/-! ### Helper lemmas -/

theorem land_pow_eq_zero (n k : Nat) : (n &&& 2 ^ k = 0) ↔ n.testBit k = false := by
  rw [Nat.and_two_pow]
  cases h : n.testBit k
  · simp
  · simp [(Nat.two_pow_pos k).ne']

theorem land_two_eq_zero (n : Nat) : (n &&& 2 = 0) ↔ n.testBit 1 = false := by
  have h := land_pow_eq_zero n 1
  norm_num at h
  exact h

theorem land_four_eq_zero (n : Nat) : (n &&& 4 = 0) ↔ n.testBit 2 = false := by
  have h := land_pow_eq_zero n 2
  norm_num at h
  exact h

theorem land_eight_eq_zero (n : Nat) : (n &&& 8 = 0) ↔ n.testBit 3 = false := by
  have h := land_pow_eq_zero n 3
  norm_num at h
  exact h

theorem land_sixtyfour_eq_zero (n : Nat) : (n &&& 64 = 0) ↔ n.testBit 6 = false := by
  have h := land_pow_eq_zero n 6
  norm_num at h
  exact h

/-! ### C1 -/

/-- C1: when an input port has reached `DCM_CONNECTION`, the stabilized event
mask is evaluated by a fixed-priority ladder — the pin-2-low bit (bit 1)
beats the pin-1-loaded bit (bit 6), which beats the pin-6-high bit (bit 3),
which beats the pin-5-low bit (bit 2); the winning bit selects
`DCM_PIN2_LOW`, `DCM_PIN1_LOADED`, `DCM_PIN6_HIGH` or `DCM_PIN5_LOW`
respectively, and with no event bit set at all the machine returns to
`DCM_INIT`. -/
theorem dcm_connection_ladder_priority (s : InPort) (e : InEnv)
    (hS : s.State = .DCM_CONNECTION) (hEn : s.FSMEnabled = true) :
    (s.Event.testBit 1 = true → (inputTick s e).State = .DCM_PIN2_LOW) ∧
    (s.Event.testBit 1 = false → s.Event.testBit 6 = true →
        (inputTick s e).State = .DCM_PIN1_LOADED) ∧
    (s.Event.testBit 1 = false → s.Event.testBit 6 = false →
        s.Event.testBit 3 = true → (inputTick s e).State = .DCM_PIN6_HIGH) ∧
    (s.Event.testBit 1 = false → s.Event.testBit 6 = false →
        s.Event.testBit 3 = false → s.Event.testBit 2 = true →
        (inputTick s e).State = .DCM_PIN5_LOW) ∧
    (s.Event.testBit 1 = false → s.Event.testBit 6 = false →
        s.Event.testBit 3 = false → s.Event.testBit 2 = false →
        (inputTick s e).State = .DCM_INIT) := by
  refine ⟨fun h1 => ?_, fun h1 h6 => ?_, fun h1 h6 h3 => ?_,
          fun h1 h6 h3 h2 => ?_, fun h1 h6 h3 h2 => ?_⟩ <;>
    simp_all [inputTick, inputStateStep, hS, hEn, land_two_eq_zero,
              land_four_eq_zero, land_eight_eq_zero, land_sixtyfour_eq_zero]

/-- Witness for C1: a mask with only the pin-6-high bit set (`Event = 8`)
selects `DCM_PIN6_HIGH`, and the empty mask returns to `DCM_INIT`. -/
theorem dcm_connection_ladder_priority_witness :
    (inputTick { InputPortDefault with State := .DCM_CONNECTION, Event := 8 }
        { pin5 := true, pin6 := true, inPin1 := 4000, colorReady := false,
          colorBuffer := [], latchedCmd := 0 }).State = .DCM_PIN6_HIGH ∧
    (inputTick { InputPortDefault with State := .DCM_CONNECTION, Event := 0 }
        { pin5 := true, pin6 := true, inPin1 := 4000, colorReady := false,
          colorBuffer := [], latchedCmd := 0 }).State = .DCM_INIT :=
  ⟨(dcm_connection_ladder_priority _ _ rfl rfl).2.2.1 (by decide) (by decide)
      (by decide),
   (dcm_connection_ladder_priority _ _ rfl rfl).2.2.2.2 (by decide) (by decide)
      (by decide) (by decide)⟩

/-! ### C3 -/

/-- A port sitting in `DCM_PIN2_LOW` with a stabilized mask whose pin-5-low
and pin-6-high bits are both clear (only the pin-2-low bit, bit 1, set). -/
def pin2LowBoundaryPort : InPort :=
  { InputPortDefault with State := .DCM_PIN2_LOW, Event := 2 }

/-- Environment whose pin-1 sample is exactly the converted
`IN1_TOUCH_HIGH` threshold. -/
def pin2LowBoundaryEnvHigh : InEnv :=
  { pin5 := true, pin6 := false, inPin1 := VtoC IN1_TOUCH_HIGH,
    colorReady := false, colorBuffer := [], latchedCmd := 0 }

/-- Counterexample to C3: with the pin-1 reading exactly at the converted
`IN1_TOUCH_HIGH` threshold (and likewise at `IN1_TOUCH_LOW`), the
`DCM_PIN2_LOW` ladder does NOT route into `DCM_NXT_TOUCH_CHECK` — the strict
comparisons at d_analog.c line 2705 exclude the boundary, so the port is
classified directly as the NXT sound sensor (the else branch of the
ladder). -/
theorem dcm_pin2_low_boundary_counterexample :
    (inputTick pin2LowBoundaryPort pin2LowBoundaryEnvHigh).State ≠
        .DCM_NXT_TOUCH_CHECK ∧
    (inputTick pin2LowBoundaryPort pin2LowBoundaryEnvHigh).InDcm =
        .TYPE_NXT_SOUND ∧
    (inputTick pin2LowBoundaryPort
        { pin2LowBoundaryEnvHigh with inPin1 := VtoC IN1_TOUCH_LOW }).State ≠
        .DCM_NXT_TOUCH_CHECK ∧
    (inputTick pin2LowBoundaryPort
        { pin2LowBoundaryEnvHigh with inPin1 := VtoC IN1_TOUCH_LOW }).InDcm =
        .TYPE_NXT_SOUND := by
  decide

/-- C3 (amended): in the `DCM_PIN2_LOW` ladder, a pin-1 reading strictly
between the converted `IN1_TOUCH_LOW` and `IN1_TOUCH_HIGH` thresholds routes
into the touch/sound disambiguation sub-state `DCM_NXT_TOUCH_CHECK`, while a
reading exactly equal to either threshold falls through to the default
branch and is classified directly as the NXT sound sensor. -/
theorem dcm_pin2_low_touch_band (s : InPort) (e : InEnv)
    (hS : s.State = .DCM_PIN2_LOW) (hEn : s.FSMEnabled = true)
    (h5 : s.Event &&& 4 = 0) (h6 : s.Event &&& 8 = 0)
    (hgnd : ¬ e.inPin1 < VtoC IN1_NEAR_GND)
    (h5v : ¬ e.inPin1 > VtoC IN1_NEAR_5V) :
    (VtoC IN1_TOUCH_LOW < e.inPin1 ∧ e.inPin1 < VtoC IN1_TOUCH_HIGH →
        (inputTick s e).State = .DCM_NXT_TOUCH_CHECK ∧
        (inputTick s e).Value = e.inPin1 ∧ (inputTick s e).Connected = true) ∧
    (e.inPin1 = VtoC IN1_TOUCH_HIGH ∨ e.inPin1 = VtoC IN1_TOUCH_LOW →
        (inputTick s e).InDcm = .TYPE_NXT_SOUND ∧
        (inputTick s e).InConn = .CONN_NXT_DUMB ∧
        (inputTick s e).State = .DCM_CONNECTED_WAITING_FOR_PIN2_HIGH) := by
  constructor
  · rintro ⟨hlo, hhi⟩
    simp [inputTick, inputStateStep, pin2LowLadder, hS, hEn, h5, h6,
          hgnd, h5v, hlo, hhi]
  · rintro (h | h) <;>
      norm_num [inputTick, inputStateStep, pin2LowLadder, hS, hEn, h5, h6,
                h, Nat.shiftLeft_eq, VtoC, IN1_TOUCH_LOW, IN1_TOUCH_HIGH,
                IN1_NEAR_GND, IN1_NEAR_5V, ADC_RES, ADC_REF]


/-- Witness for C3 (amended): a reading of 700 counts (strictly inside the
band) enters `DCM_NXT_TOUCH_CHECK`, while a reading exactly at the converted
`IN1_TOUCH_HIGH` threshold is classified directly as the sound sensor. -/
theorem dcm_pin2_low_touch_band_witness :
    (inputTick pin2LowBoundaryPort
        { pin2LowBoundaryEnvHigh with inPin1 := 700 }).State =
      .DCM_NXT_TOUCH_CHECK ∧
    (inputTick pin2LowBoundaryPort pin2LowBoundaryEnvHigh).InDcm =
      .TYPE_NXT_SOUND :=
  ⟨((dcm_pin2_low_touch_band pin2LowBoundaryPort
        { pin2LowBoundaryEnvHigh with inPin1 := 700 } rfl rfl (by decide)
        (by decide) (by decide) (by decide)).1 (by decide)).1,
   ((dcm_pin2_low_touch_band pin2LowBoundaryPort pin2LowBoundaryEnvHigh
        rfl rfl (by decide) (by decide) (by decide) (by decide)).2
        (Or.inl rfl)).1⟩

/-! ### C4 -/

/-- C4: in the output `DCM_CONNECTION` state, if the two snapshots agree
within tolerance (`ADC_REF + Value5Float - Value5Low` strictly between
`ADC_REF - 50` and `ADC_REF + 50`) the tick runs the direct voltage-band
ladder on `Value5Float`; otherwise `Value5Low` alone is checked — strictly
between `OUT5_NEAR_GND` and `OUT5_BALANCE_LOW` classifies the
new-actuator/dumb-output device with the measured voltage stored as its
identification code, and anything outside that band classifies `Error`.
The bounds `≤ ADC_REF` hold for every value the machine stores there
(`CtoV` of a 12-bit sample is at most 5000) and make the `UWORD`
tolerance test coincide with plain arithmetic. -/
theorem dcm_out_connection_snapshots (s : OutPort) (e : OutEnv)
    (hS : s.State = .DCM_CONNECTION)
    (hF : s.Value5Float ≤ ADC_REF) (hL : s.Value5Low ≤ ADC_REF) :
    (ADC_REF - 50 < ADC_REF + s.Value5Float - s.Value5Low ∧
        ADC_REF + s.Value5Float - s.Value5Low < ADC_REF + 50 →
      outputTick s e =
        { outConnectionDirect
            { s with State := .DCM_CONNECTED_WAITING_FOR_PORT_OPEN } with
          Timer := 0 }) ∧
    (¬ (ADC_REF - 50 < ADC_REF + s.Value5Float - s.Value5Low ∧
        ADC_REF + s.Value5Float - s.Value5Low < ADC_REF + 50) →
      (OUT5_NEAR_GND < s.Value5Low ∧ s.Value5Low < OUT5_BALANCE_LOW →
          (outputTick s e).OutDcm = .TYPE_UNKNOWN ∧
          (outputTick s e).OutConn = .CONN_OUTPUT_DUMB ∧
          (outputTick s e).OutPin5Low = s.Value5Low ∧
          (outputTick s e).Connected = true) ∧
      (s.Value5Low ≤ OUT5_NEAR_GND ∨ OUT5_BALANCE_LOW ≤ s.Value5Low →
          (outputTick s e).OutDcm = .TYPE_ERROR ∧
          (outputTick s e).OutConn = .CONN_ERROR ∧
          (outputTick s e).Connected = true)) := by
  have hmod : (ADC_REF + s.Value5Float + 65536 - s.Value5Low) % 65536 =
      ADC_REF + s.Value5Float - s.Value5Low := by
    unfold ADC_REF at *
    omega
  refine ⟨fun htol => ?_, fun htol => ⟨fun hband => ?_, fun hout => ?_⟩⟩
  · simp [outputTick, outputStateStep, hS, hmod, htol]
  · have hnear : OUT5_NEAR_GND < s.Value5Low := hband.1
    have hbal : s.Value5Low < OUT5_BALANCE_LOW := hband.2
    simp [outputTick, outputStateStep, hS, hmod, htol, hnear, hbal]
  · have hnot : ¬ (OUT5_NEAR_GND < s.Value5Low ∧ s.Value5Low < OUT5_BALANCE_LOW) := by
      unfold OUT5_NEAR_GND OUT5_BALANCE_LOW at *
      omega
    simp [outputTick, outputStateStep, hS, hmod, htol, hnot]

/-- An output port in `DCM_CONNECTION` whose two snapshots diverge beyond
tolerance, with the low snapshot inside the new-actuator band. -/
def outDivergentPort : OutPort :=
  { OutputPortDefault with State := .DCM_CONNECTION, Value5Float := 2500, Value5Low := 500 }

/-- An output port in `DCM_CONNECTION` whose two snapshots agree exactly. -/
def outEqualPort : OutPort :=
  { OutputPortDefault with State := .DCM_CONNECTION, Value5Float := 2500, Value5Low := 2500 }

/-- An arbitrary output-port tick environment. -/
def outIdleEnv : OutEnv := { pin6 := true, outPin5 := 0 }

/-- Witness for C4: snapshots 2500/500 diverge beyond tolerance and 500 lies
in the new-actuator band, so the port is classified dumb-output with code
500; snapshots 2500/2500 agree, so the direct ladder runs. -/
theorem dcm_out_connection_snapshots_witness :
    ((outputTick outDivergentPort outIdleEnv).OutDcm = .TYPE_UNKNOWN ∧
     (outputTick outDivergentPort outIdleEnv).OutConn = .CONN_OUTPUT_DUMB ∧
     (outputTick outDivergentPort outIdleEnv).OutPin5Low = 500 ∧
     (outputTick outDivergentPort outIdleEnv).Connected = true) ∧
    outputTick outEqualPort outIdleEnv =
      { outConnectionDirect
          { outEqualPort with
            State := .DCM_CONNECTED_WAITING_FOR_PORT_OPEN } with Timer := 0 } :=
  ⟨((dcm_out_connection_snapshots outDivergentPort outIdleEnv rfl
        (by decide) (by decide)).2 (by decide)).1 (by decide),
   (dcm_out_connection_snapshots outEqualPort outIdleEnv rfl
        (by decide) (by decide)).1 (by decide)⟩

/-! ### C5 -/

/-- C5: the active-probe classification in the output
`DCM_WAITING_FOR_PIN5_LOW` state (once the probe delay has elapsed) is a
function of the measured post-probe voltage `CtoV outPin5` alone — equal
samples always give identical classifications — and follows the bands
`[OUT5_NEWTACHO_LOW1, OUT5_NEWTACHO_HIGH1) ↦ TYPE_NEWTACHO`,
`[OUT5_MINITACHO_LOW1, OUT5_MINITACHO_HIGH1) ↦ TYPE_MINITACHO`, and
`TYPE_TACHO` everywhere else, always with connection `CONN_OUTPUT_TACHO`. -/
theorem dcm_out_probe_classification (s : OutPort) (e1 e2 : OutEnv)
    (hS : s.State = .DCM_WAITING_FOR_PIN5_LOW)
    (hT : s.Timer + 1 ≥ DCM_LOW_DELAY / DCM_TIMER_RESOLUTION) :
    (e1.outPin5 = e2.outPin5 →
        (outputTick s e1).OutDcm = (outputTick s e2).OutDcm ∧
        (outputTick s e1).OutConn = (outputTick s e2).OutConn) ∧
    (OUT5_NEWTACHO_LOW1 ≤ CtoV e1.outPin5 ∧
        CtoV e1.outPin5 < OUT5_NEWTACHO_HIGH1 →
        (outputTick s e1).OutDcm = .TYPE_NEWTACHO) ∧
    (OUT5_MINITACHO_LOW1 ≤ CtoV e1.outPin5 ∧
        CtoV e1.outPin5 < OUT5_MINITACHO_HIGH1 →
        (outputTick s e1).OutDcm = .TYPE_MINITACHO) ∧
    (CtoV e1.outPin5 < OUT5_NEWTACHO_LOW1 ∨
        OUT5_MINITACHO_HIGH1 ≤ CtoV e1.outPin5 →
        (outputTick s e1).OutDcm = .TYPE_TACHO) ∧
    (outputTick s e1).OutConn = .CONN_OUTPUT_TACHO ∧
    (outputTick s e1).Connected = true ∧
    (outputTick s e1).Value5Low = CtoV e1.outPin5 ∧
    (outputTick s e1).State = .DCM_CONNECTED_WAITING_FOR_PORT_OPEN := by
  refine ⟨fun heq => ?_, fun hband => ?_, fun hband => ?_, fun hband => ?_,
          ?_, ?_, ?_, ?_⟩
  · simp [outputTick, outputStateStep, hS, hT, heq]
  · have h1 := hband.1
    have h2 := hband.2
    simp [outputTick, outputStateStep, hS, hT, h1, h2]
  · have h1 := hband.1
    have h2 := hband.2
    have hno : ¬ (OUT5_NEWTACHO_LOW1 ≤ CtoV e1.outPin5 ∧
        CtoV e1.outPin5 < OUT5_NEWTACHO_HIGH1) := by
      unfold OUT5_NEWTACHO_LOW1 OUT5_NEWTACHO_HIGH1 OUT5_MINITACHO_LOW1 at *
      omega
    simp [outputTick, outputStateStep, hS, hT, hno, h1, h2]
  · have hno1 : ¬ (OUT5_NEWTACHO_LOW1 ≤ CtoV e1.outPin5 ∧
        CtoV e1.outPin5 < OUT5_NEWTACHO_HIGH1) := by
      unfold OUT5_NEWTACHO_LOW1 OUT5_NEWTACHO_HIGH1 OUT5_MINITACHO_HIGH1 at *
      omega
    have hno2 : ¬ (OUT5_MINITACHO_LOW1 ≤ CtoV e1.outPin5 ∧
        CtoV e1.outPin5 < OUT5_MINITACHO_HIGH1) := by
      unfold OUT5_NEWTACHO_LOW1 OUT5_MINITACHO_LOW1 OUT5_MINITACHO_HIGH1 at *
      omega
    simp [outputTick, outputStateStep, hS, hT, hno1, hno2]
  all_goals
    simp only [outputTick, outputStateStep, hS]
    simp [hT]
    try split_ifs <;> simp


/-- An output port one tick away from completing the active probe. -/
def outProbePort : OutPort :=
  { OutputPortDefault with State := .DCM_WAITING_FOR_PIN5_LOW, Timer := 1 }

/-- Witness for C5: a post-probe sample converting to 1299 mV lands in the
new-tacho band, and probing twice with the same sample gives the same
classification. -/
theorem dcm_out_probe_classification_witness :
    ((outputTick outProbePort { pin6 := true, outPin5 := VtoC 1300 }).OutDcm =
        (outputTick outProbePort { pin6 := true, outPin5 := VtoC 1300 }).OutDcm ∧
     (outputTick outProbePort { pin6 := true, outPin5 := VtoC 1300 }).OutConn =
        (outputTick outProbePort { pin6 := true, outPin5 := VtoC 1300 }).OutConn) ∧
    (outputTick outProbePort { pin6 := true, outPin5 := VtoC 1300 }).OutDcm =
      .TYPE_NEWTACHO :=
  ⟨(dcm_out_probe_classification outProbePort
      { pin6 := true, outPin5 := VtoC 1300 } { pin6 := true, outPin5 := VtoC 1300 }
      rfl (by decide)).1 rfl,
   (dcm_out_probe_classification outProbePort
      { pin6 := true, outPin5 := VtoC 1300 } { pin6 := true, outPin5 := VtoC 1300 }
      rfl (by decide)).2.1 (by decide)⟩

/-! ### C7 -/

/-- A port in `DCM_NXT_COLOR_BUSY` with a zeroed results-table payload. -/
def colorBusyPort : InPort :=
  { InputPortDefault with State := .DCM_NXT_COLOR_BUSY, NxtColorState := 7 }

/-- An environment in which the color engine never reports ready and holds a
payload of all-ones. -/
def colorStuckEnv : InEnv :=
  { pin5 := true, pin6 := false, inPin1 := 0, colorReady := false,
    colorBuffer := List.replicate NXTCOLOR_BYTES 1, latchedCmd := 0 }

set_option maxRecDepth 10000

/-- Counterexample to C7: if the color engine never completes, the 51st
`DCM_NXT_COLOR_BUSY` tick times out (`++Timer > 500 ms / 10 ms`) and tears
the session down — the port leaves the busy state and the engine sub-state
is reset to 0 — but the session payload is NOT copied into the results
table: the results-table payload still holds its old (zeroed) bytes, not the
engine buffer's.  This contradicts the claim that the payload is copied on
timeout as well as on completion. -/
theorem dcm_color_busy_timeout_counterexample :
    (inputRunN colorBusyPort (fun _ => colorStuckEnv) 51).State =
        .DCM_CONNECTED_WAITING_FOR_PIN2_HIGH ∧
    (inputRunN colorBusyPort (fun _ => colorStuckEnv) 51).NxtColorState = 0 ∧
    (inputRunN colorBusyPort (fun _ => colorStuckEnv) 51).NxtCol ≠
        colorStuckEnv.colorBuffer.take NXTCOLOR_BYTES ∧
    (inputRunN colorBusyPort (fun _ => colorStuckEnv) 51).NxtCol =
        List.replicate NXTCOLOR_BYTES 0 := by
  decide

/-- C7 (amended): while a port is in `DCM_NXT_COLOR_BUSY` the DCM polls the
color engine's readiness under the 500 ms timeout.  On completion it copies
the session's payload buffer — exactly `NXTCOLOR_BYTES` bytes — into the
results table and tears the session down (engine stopped, sub-state machine
reset to its init state 0); on timeout it performs the same teardown but
does NOT copy the payload, leaving the results-table payload unchanged. -/
theorem dcm_color_busy_poll (s : InPort) (e : InEnv)
    (hS : s.State = .DCM_NXT_COLOR_BUSY) (hEn : s.FSMEnabled = true) :
    (e.colorReady = true →
        (inputTick s e).NxtCol = e.colorBuffer.take NXTCOLOR_BYTES ∧
        (inputTick s e).NxtColorState = 0 ∧
        (inputTick s e).NxtColorActive = true ∧
        (inputTick s e).State = .DCM_CONNECTED_WAITING_FOR_PIN2_HIGH) ∧
    (e.colorReady = false →
        (inputTick s e).NxtCol = s.NxtCol ∧
        (s.Timer + 1 > DCM_NXT_COLOR_TIMEOUT / DCM_TIMER_RESOLUTION →
            (inputTick s e).State = .DCM_CONNECTED_WAITING_FOR_PIN2_HIGH ∧
            (inputTick s e).NxtColorState = 0 ∧ (inputTick s e).Timer = 0) ∧
        (s.Timer + 1 ≤ DCM_NXT_COLOR_TIMEOUT / DCM_TIMER_RESOLUTION →
            (inputTick s e).State = .DCM_NXT_COLOR_BUSY ∧
            (inputTick s e).Timer = s.Timer + 1 ∧
            (inputTick s e).NxtColorState = s.NxtColorState)) := by
  refine ⟨fun hr => ?_, fun hr => ⟨?_, fun hto => ?_, fun hto => ?_⟩⟩
  · simp [inputTick, inputStateStep, hS, hEn, hr,
          DCM_NXT_COLOR_TIMEOUT, DCM_TIMER_RESOLUTION]
  · simp [inputTick, inputStateStep, hS, hEn, hr]
    split_ifs <;> rfl
  · have hto' : DCM_NXT_COLOR_TIMEOUT / DCM_TIMER_RESOLUTION < s.Timer + 1 := by
      omega
    simp [inputTick, inputStateStep, hS, hEn, hr, hto']
  · have hto' : ¬ DCM_NXT_COLOR_TIMEOUT / DCM_TIMER_RESOLUTION < s.Timer + 1 := by
      omega
    simp [inputTick, inputStateStep, hS, hEn, hr, hto']

/-- Witness for C7 (amended): a completing engine tick copies the payload
and tears down; a first non-ready tick keeps polling. -/
theorem dcm_color_busy_poll_witness :
    ((inputTick colorBusyPort { colorStuckEnv with colorReady := true }).NxtCol =
        List.replicate NXTCOLOR_BYTES 1 ∧
     (inputTick colorBusyPort { colorStuckEnv with colorReady := true }).NxtColorState = 0 ∧
     (inputTick colorBusyPort { colorStuckEnv with colorReady := true }).State =
        .DCM_CONNECTED_WAITING_FOR_PIN2_HIGH) ∧
    ((inputTick colorBusyPort colorStuckEnv).State = .DCM_NXT_COLOR_BUSY ∧
     (inputTick colorBusyPort colorStuckEnv).NxtCol =
        List.replicate NXTCOLOR_BYTES 0) := by
  have h1 := (dcm_color_busy_poll colorBusyPort
      { colorStuckEnv with colorReady := true } rfl rfl).1 rfl
  have h2 := (dcm_color_busy_poll colorBusyPort colorStuckEnv rfl rfl).2 rfl
  refine ⟨⟨?_, h1.2.1, h1.2.2.2⟩, (h2.2.2 (by decide)).1, ?_⟩
  · rw [h1.1]
    decide
  · rw [h2.1]
    decide

/-! ### C9 -/

/-- A disconnected input port with automatic detection disabled: the state a
port is left in when `e…0…` disables it before its next DCM tick has run
(the `DCM_DISABLED` case is what later forces `Connected = 1`). -/
def disabledDisconnectedPort : InPort :=
  { InputPortDefault with FSMEnabled := false }

/-- Counterexample to C9: processing a `'t'` command for a port whose
automatic detection is disabled does NOT always write the forced pair — the
handler first skips any port with `Connected == 0` (d_analog.c lines
2598-2600), so this disabled but disconnected port keeps `TYPE_NONE` /
`CONN_NONE` instead of receiving the forced `TYPE_TOUCH` /
`CONN_INPUT_DUMB`. -/
theorem t_command_counterexample :
    disabledDisconnectedPort.FSMEnabled = false ∧
    (tCommandPort disabledDisconnectedPort .connInputDumb).InDcm ≠ .TYPE_TOUCH ∧
    (tCommandPort disabledDisconnectedPort .connInputDumb).InConn ≠ .CONN_INPUT_DUMB ∧
    tCommandPort disabledDisconnectedPort .connInputDumb = disabledDisconnectedPort := by
  decide

/-- C9 (amended): a `'t'` command forces a port's (device type, connection
type) pair only when that port's automatic detection is disabled AND the
port is currently marked Connected; every port with `FSMEnabled = 1` is left
unchanged, and so is a disconnected port even when detection is disabled.
For a disabled, connected port the pair selected by the command character is
written (`'-'` and unrecognized characters change nothing). -/
theorem t_command_gate (s : InPort) (c : TChar) :
    (s.FSMEnabled = true → tCommandPort s c = s) ∧
    (s.Connected = false → tCommandPort s c = s) ∧
    (s.FSMEnabled = false → s.Connected = true →
        ((c = .connNxtIic → (tCommandPort s c).InDcm = .TYPE_NXT_IIC ∧
            (tCommandPort s c).InConn = .CONN_NXT_IIC) ∧
         (c = .connNxtDumb → (tCommandPort s c).InDcm = .TYPE_NXT_LIGHT ∧
            (tCommandPort s c).InConn = .CONN_NXT_DUMB) ∧
         (c = .connInputDumb → (tCommandPort s c).InDcm = .TYPE_TOUCH ∧
            (tCommandPort s c).InConn = .CONN_INPUT_DUMB) ∧
         (c = .connNone → (tCommandPort s c).InDcm = .TYPE_NONE ∧
            (tCommandPort s c).InConn = .CONN_NONE) ∧
         (c = .dash ∨ c = .other → tCommandPort s c = s))) := by
  refine ⟨fun hEn => ?_, fun hCon => ?_,
          fun hEn hCon => ⟨fun hc => ?_, fun hc => ?_, fun hc => ?_,
                           fun hc => ?_, fun hc => ?_⟩⟩
  · by_cases hCon : s.Connected = false <;> simp [tCommandPort, hEn, hCon]
  · simp [tCommandPort, hCon]
  all_goals first
    | (subst hc; simp [tCommandPort, hEn, hCon])
    | (rcases hc with hc | hc <;> subst hc <;> simp [tCommandPort, hEn, hCon])

/-- Witness for C9 (amended): an enabled port is untouched by a forcing
character, and a disabled, connected port receives the forced pair. -/
theorem t_command_gate_witness :
    tCommandPort InputPortDefault .connInputDumb = InputPortDefault ∧
    (tCommandPort { InputPortDefault with FSMEnabled := false, Connected := true }
        .connInputDumb).InDcm = .TYPE_TOUCH ∧
    (tCommandPort { InputPortDefault with FSMEnabled := false, Connected := true }
        .connInputDumb).InConn = .CONN_INPUT_DUMB :=
  ⟨(t_command_gate InputPortDefault .connInputDumb).1 rfl,
   (((t_command_gate { InputPortDefault with FSMEnabled := false, Connected := true }
        .connInputDumb).2.2 rfl rfl).2.2.1 rfl).1,
   (((t_command_gate { InputPortDefault with FSMEnabled := false, Connected := true }
        .connInputDumb).2.2 rfl rfl).2.2.1 rfl).2⟩

/-! ### C10 -/

/-- The computed floating event mask can never contain the pin-2 bit: the
pin-2 level test is compiled out to `if (!1)` (d_analog.c line 2547). -/
theorem inputEvent_land_two (e : InEnv) : inputEvent e &&& 2 = 0 := by
  unfold inputEvent
  split_ifs <;> simp_all <;> decide

/-- The input-DCM states reachable from the power-on port record under
arbitrary tick environments. -/
inductive InReachable : InPort → Prop where
  | base : InReachable InputPortDefault
  | step (s : InPort) (e : InEnv) : InReachable s → InReachable (inputTick s e)

/-- One tick preserves the dead-code invariant of the input DCM: the pin-2
event bit stays clear and the `DCM_PIN2_LOW` sub-chain stays unentered. -/
theorem inDeadCode_step (s : InPort) (e : InEnv)
    (h : s.Event &&& 2 = 0 ∧
      s.State ≠ .DCM_PIN2_LOW ∧ s.State ≠ .DCM_NXT_TOUCH_CHECK ∧
      s.State ≠ .DCM_NXT_COLOR_INIT ∧ s.State ≠ .DCM_NXT_COLOR_WAIT ∧
      s.State ≠ .DCM_NXT_COLOR_START ∧ s.State ≠ .DCM_NXT_COLOR_BUSY) :
    (inputTick s e).Event &&& 2 = 0 ∧
    (inputTick s e).State ≠ .DCM_PIN2_LOW ∧
    (inputTick s e).State ≠ .DCM_NXT_TOUCH_CHECK ∧
    (inputTick s e).State ≠ .DCM_NXT_COLOR_INIT ∧
    (inputTick s e).State ≠ .DCM_NXT_COLOR_WAIT ∧
    (inputTick s e).State ≠ .DCM_NXT_COLOR_START ∧
    (inputTick s e).State ≠ .DCM_NXT_COLOR_BUSY := by
  obtain ⟨hEv, h1, h2, h3, h4, h5, h6⟩ := h
  by_cases hEn : s.FSMEnabled = false
  · simp [inputTick, inputStateStep, hEn, hEv]
  · cases hState : s.State <;>
      simp_all [inputTick, inputStateStep, inputEvent_land_two] <;>
      split_ifs <;>
      simp_all [inputEvent_land_two]

/-- C10: in every state of the input DCM reachable from power-on, the
pin-2-low bit (bit 1, mask `2`) of the stored event mask is clear — the
pin-2 level test is compiled out to constant false — and consequently the
`DCM_PIN2_LOW` state and its entire sub-chain (`DCM_NXT_TOUCH_CHECK` and
the color-session sub-states) are never entered; of the classification
states only `DCM_PIN1_LOADED`, `DCM_PIN6_HIGH` and `DCM_PIN5_LOW` are
reachable through the Floating/Connection path. -/
theorem dcm_pin2_chain_unreachable (s : InPort) (h : InReachable s) :
    s.Event &&& 2 = 0 ∧
    s.State ≠ .DCM_PIN2_LOW ∧ s.State ≠ .DCM_NXT_TOUCH_CHECK ∧
    s.State ≠ .DCM_NXT_COLOR_INIT ∧ s.State ≠ .DCM_NXT_COLOR_WAIT ∧
    s.State ≠ .DCM_NXT_COLOR_START ∧ s.State ≠ .DCM_NXT_COLOR_BUSY := by
  induction h with
  | base => decide
  | step s e hs ih => exact inDeadCode_step s e ih

/-- Witness for C10: the invariant instantiated at the power-on record. -/
theorem dcm_pin2_chain_unreachable_witness :
    InputPortDefault.Event &&& 2 = 0 ∧
    InputPortDefault.State ≠ .DCM_PIN2_LOW ∧
    InputPortDefault.State ≠ .DCM_NXT_TOUCH_CHECK ∧
    InputPortDefault.State ≠ .DCM_NXT_COLOR_INIT ∧
    InputPortDefault.State ≠ .DCM_NXT_COLOR_WAIT ∧
    InputPortDefault.State ≠ .DCM_NXT_COLOR_START ∧
    InputPortDefault.State ≠ .DCM_NXT_COLOR_BUSY :=
  dcm_pin2_chain_unreachable InputPortDefault InReachable.base

/-! ### C2 -/

/-- Exhaustive description of one `DCM_FLOATING` tick: the results-table
classification is untouched, a changed mask restarts the debounce (the timer
is zeroed and then pre-incremented once if the new mask is nonzero), and an
unchanged nonzero mask counts up to the steady-time window, crossing into
`DCM_CONNECTION` exactly when the incremented timer reaches it. -/
theorem floating_step_facts (s : InPort) (e : InEnv)
    (hS : s.State = .DCM_FLOATING) (hEn : s.FSMEnabled = true) :
    (inputTick s e).InDcm = s.InDcm ∧
    (inputTick s e).InConn = s.InConn ∧
    (inputTick s e).FSMEnabled = true ∧
    (inputEvent e ≠ s.Event →
        (inputTick s e).Event = inputEvent e ∧
        (inputTick s e).Timer = (if inputEvent e ≠ 0 then 1 else 0) ∧
        (inputTick s e).State = .DCM_FLOATING) ∧
    (inputEvent e = s.Event →
        (inputTick s e).Event = s.Event ∧
        (s.Event = 0 → inputTick s e = s) ∧
        (s.Event ≠ 0 →
            (inputTick s e).Timer = s.Timer + 1 ∧
            (s.Timer + 1 ≥ DCM_CONNECT_STABLE_DELAY / DCM_TIMER_RESOLUTION →
                (inputTick s e).State = .DCM_CONNECTION) ∧
            (s.Timer + 1 < DCM_CONNECT_STABLE_DELAY / DCM_TIMER_RESOLUTION →
                (inputTick s e).State = .DCM_FLOATING))) := by
  obtain ⟨V, Co, Cm, St, Ev, T, F, D, Cn, NC, NA, NCC, NCS⟩ := s
  simp only at hS hEn
  subst hS
  subst hEn
  refine ⟨?_, ?_, ?_, fun hne => ?_, fun heq => ?_⟩
  · simp [inputTick, inputStateStep]
    split_ifs <;> rfl
  · simp [inputTick, inputStateStep]
    split_ifs <;> rfl
  · simp [inputTick, inputStateStep]
    split_ifs <;> rfl
  · have hne' : ¬ (Ev = inputEvent e) := fun h => hne h.symm
    refine ⟨?_, ?_, ?_⟩
    · simp [inputTick, inputStateStep, hne']
      split_ifs <;> rfl
    · simp [inputTick, inputStateStep, hne']
      split_ifs <;> rfl
    · simp [inputTick, inputStateStep, hne', DCM_CONNECT_STABLE_DELAY,
            IN_CONNECT_STEADY_TIME, DCM_TIMER_RESOLUTION]
      split_ifs <;> simp_all
  · refine ⟨?_, fun hz => ?_, fun hz => ⟨?_, fun hge => ?_, fun hlt => ?_⟩⟩
    · simp [inputTick, inputStateStep, heq]
      split_ifs <;> rfl
    · simp only at heq hz
      subst hz
      simp [inputTick, inputStateStep, heq]
    · simp [inputTick, inputStateStep, heq, hz]
      split_ifs <;> rfl
    · norm_num [DCM_CONNECT_STABLE_DELAY, IN_CONNECT_STEADY_TIME,
                DCM_TIMER_RESOLUTION] at hge
      simp [inputTick, inputStateStep, heq, hz, hge, DCM_CONNECT_STABLE_DELAY,
            IN_CONNECT_STEADY_TIME, DCM_TIMER_RESOLUTION]
    · norm_num [DCM_CONNECT_STABLE_DELAY, IN_CONNECT_STEADY_TIME,
                DCM_TIMER_RESOLUTION] at hlt
      have hne35 : ¬ (35 ≤ T + 1) := by omega
      simp [inputTick, inputStateStep, heq, hz, hne35, DCM_CONNECT_STABLE_DELAY,
            IN_CONNECT_STEADY_TIME, DCM_TIMER_RESOLUTION]

/-- Debounce invariant of a `DCM_FLOATING` stay: while the port keeps
floating, its timer counts exactly the trailing run of ticks whose computed
mask matched the stored (nonzero) mask, it never reaches the steady-time
window, and the classification fields stay untouched. -/
theorem floating_run_inv (s0 : InPort) (es : Nat → InEnv)
    (hS0 : s0.State = .DCM_FLOATING) (hT0 : s0.Timer = 0) (hE0 : s0.Event = 0)
    (hEn0 : s0.FSMEnabled = true) (n : Nat)
    (hFl : ∀ k, k < n → (inputRunN s0 es k).State = .DCM_FLOATING) :
    ∀ k, k < n →
      (inputRunN s0 es k).FSMEnabled = true ∧
      (inputRunN s0 es k).Timer ≤ k ∧
      (inputRunN s0 es k).Timer + 1 ≤ DCM_CONNECT_STABLE_DELAY / DCM_TIMER_RESOLUTION ∧
      ((inputRunN s0 es k).Event = 0 → (inputRunN s0 es k).Timer = 0) ∧
      (∀ j, k - (inputRunN s0 es k).Timer ≤ j → j < k →
          inputEvent (es j) = (inputRunN s0 es k).Event ∧
          (inputRunN s0 es k).Event ≠ 0) ∧
      (inputRunN s0 es k).InDcm = s0.InDcm ∧
      (inputRunN s0 es k).InConn = s0.InConn := by
  intro k
  induction k with
  | zero =>
      intro _
      refine ⟨hEn0, ?_, ?_, fun _ => ?_, fun j hj1 hj2 => ?_, rfl, rfl⟩
      · exact le_of_eq hT0
      · show s0.Timer + 1 ≤ DCM_CONNECT_STABLE_DELAY / DCM_TIMER_RESOLUTION
        rw [hT0]
        decide
      · exact hT0
      · exact absurd hj2 (by omega)
  | succ k ih =>
      intro hk1
      have hk : k < n := Nat.lt_of_succ_lt hk1
      obtain ⟨iEn, iT, iTW, iE0, iWin, iD, iC⟩ := ih hk
      have hSk := hFl k hk
      obtain ⟨fD, fC, fEn, fChange, fSame⟩ :=
        floating_step_facts (inputRunN s0 es k) (es k) hSk iEn
      have hrun : inputRunN s0 es (k + 1) = inputTick (inputRunN s0 es k) (es k) := rfl
      by_cases hch : inputEvent (es k) = (inputRunN s0 es k).Event
      · obtain ⟨gE, g0, gNe⟩ := fSame hch
        by_cases hz : (inputRunN s0 es k).Event = 0
        · have hid := g0 hz
          rw [hrun, hid]
          have hTz := iE0 hz
          refine ⟨iEn, le_trans iT (Nat.le_succ k), iTW, iE0,
                  fun j hj1 hj2 => ?_, iD, iC⟩
          exact absurd hj2 (by omega)
        · obtain ⟨gT, gConn, gFl⟩ := gNe hz
          have hlt : (inputRunN s0 es k).Timer + 1 <
              DCM_CONNECT_STABLE_DELAY / DCM_TIMER_RESOLUTION := by
            by_contra hge
            push_neg at hge
            have hc := gConn hge
            have hfl1 := hFl (k + 1) hk1
            rw [hrun] at hfl1
            rw [hc] at hfl1
            exact absurd hfl1 (by decide)
          refine ⟨by rw [hrun]; exact fEn, ?_, ?_, ?_, ?_,
                  by rw [hrun, fD]; exact iD, by rw [hrun, fC]; exact iC⟩
          · rw [hrun, gT]; omega
          · rw [hrun, gT]; omega
          · rw [hrun, gT, gE]
            intro h
            exact absurd h hz
          · intro j hj1 hj2
            rw [hrun, gE]
            rw [hrun, gT] at hj1
            rcases Nat.lt_or_ge j k with hjk | hjk
            · exact iWin j (by omega) hjk
            · have hjeq : j = k := by omega
              subst hjeq
              exact ⟨hch, hz⟩
      · obtain ⟨gE, gT, gS⟩ := fChange hch
        refine ⟨by rw [hrun]; exact fEn, ?_, ?_, ?_, ?_,
                by rw [hrun, fD]; exact iD, by rw [hrun, fC]; exact iC⟩
        · rw [hrun, gT]
          split_ifs <;> omega
        · rw [hrun, gT]
          split_ifs <;> decide
        · rw [hrun, gT, gE]
          intro h
          simp [h]
        · intro j hj1 hj2
          rw [hrun, gE]
          rw [hrun, gT] at hj1
          by_cases hz : inputEvent (es k) ≠ 0
          · simp only [if_pos hz] at hj1
            have hjeq : j = k := by omega
            subst hjeq
            exact ⟨rfl, hz⟩
          · simp only [if_neg hz] at hj1
            exact absurd hj2 (by omega)

/-- C2: starting from a freshly entered `DCM_FLOATING` state, any change of
the computed event mask restarts the debounce (the timer is zeroed, then
pre-incremented once when the new mask is nonzero, and the port stays in
`DCM_FLOATING`), and the port reaches `DCM_CONNECTION` only after the
computed mask has been identical and nonzero for the full
`DCM_CONNECT_STABLE_DELAY / DCM_TIMER_RESOLUTION` (350 ms / 10 ms = 35)
consecutive ticks; throughout the stay — including the exit tick — no
classification change is written to the results table. -/
theorem dcm_floating_debounce (s0 : InPort) (es : Nat → InEnv) (n : Nat)
    (hS0 : s0.State = .DCM_FLOATING) (hT0 : s0.Timer = 0) (hE0 : s0.Event = 0)
    (hEn0 : s0.FSMEnabled = true)
    (hFl : ∀ k, k < n → (inputRunN s0 es k).State = .DCM_FLOATING)
    (hCn : (inputRunN s0 es n).State = .DCM_CONNECTION) :
    (∀ (s : InPort) (e : InEnv), s.State = .DCM_FLOATING →
        s.FSMEnabled = true → inputEvent e ≠ s.Event →
        (inputTick s e).Timer = (if inputEvent e ≠ 0 then 1 else 0) ∧
        (inputTick s e).State = .DCM_FLOATING) ∧
    DCM_CONNECT_STABLE_DELAY / DCM_TIMER_RESOLUTION ≤ n ∧
    (∀ j, n - DCM_CONNECT_STABLE_DELAY / DCM_TIMER_RESOLUTION ≤ j → j < n →
        inputEvent (es j) = inputEvent (es (n - 1)) ∧ inputEvent (es j) ≠ 0) ∧
    (∀ k, k ≤ n → (inputRunN s0 es k).InDcm = s0.InDcm ∧
        (inputRunN s0 es k).InConn = s0.InConn) := by
  have hW : DCM_CONNECT_STABLE_DELAY / DCM_TIMER_RESOLUTION = 35 := rfl
  refine ⟨fun s e hS hEn hne => ?_, ?_⟩
  · obtain ⟨_, _, _, fChange, _⟩ := floating_step_facts s e hS hEn
    obtain ⟨_, g2, g3⟩ := fChange hne
    exact ⟨g2, g3⟩
  · cases n with
    | zero =>
        rw [show inputRunN s0 es 0 = s0 from rfl, hS0] at hCn
        exact absurd hCn (by decide)
    | succ m =>
        have hInv := floating_run_inv s0 es hS0 hT0 hE0 hEn0 (m + 1) hFl
        obtain ⟨iEn, iT, iTW, iE0, iWin, iD, iC⟩ := hInv m (Nat.lt_succ_self m)
        have hSm := hFl m (Nat.lt_succ_self m)
        obtain ⟨fD, fC, fEn, fChange, fSame⟩ :=
          floating_step_facts (inputRunN s0 es m) (es m) hSm iEn
        have hrun : inputRunN s0 es (m + 1) =
            inputTick (inputRunN s0 es m) (es m) := rfl
        rw [hrun] at hCn
        by_cases hch : inputEvent (es m) = (inputRunN s0 es m).Event
        · obtain ⟨gE, g0, gNe⟩ := fSame hch
          by_cases hz : (inputRunN s0 es m).Event = 0
          · have hid := g0 hz
            rw [hid, hSm] at hCn
            exact absurd hCn (by decide)
          · obtain ⟨gT, gConn, gFl⟩ := gNe hz
            have hge : (inputRunN s0 es m).Timer + 1 ≥
                DCM_CONNECT_STABLE_DELAY / DCM_TIMER_RESOLUTION := by
              by_contra hlt
              push_neg at hlt
              have := gFl hlt
              rw [this] at hCn
              exact absurd hCn (by decide)
            have hmask : inputEvent (es (m + 1 - 1)) = (inputRunN s0 es m).Event := by
              simpa using hch
            rw [hW] at hge
            rw [hW] at iTW
            refine ⟨by rw [hW]; omega, fun j hj1 hj2 => ?_, fun k hk => ?_⟩
            · rw [hmask]
              rw [hW] at hj1
              rcases Nat.lt_or_ge j m with hjk | hjk
              · obtain ⟨w1, w2⟩ := iWin j (by omega) hjk
                refine ⟨w1, ?_⟩
                rw [w1]
                exact w2
              · have hjeq : j = m := by omega
                subst hjeq
                refine ⟨hch, ?_⟩
                rw [hch]
                exact hz
            · rcases Nat.lt_or_ge k (m + 1) with hkm | hkm
              · obtain ⟨_, _, _, _, _, kD, kC⟩ := hInv k hkm
                exact ⟨kD, kC⟩
              · have hkeq : k = m + 1 := by omega
                subst hkeq
                rw [hrun, fD, fC]
                exact ⟨iD, iC⟩
        · obtain ⟨gE, gT, gS⟩ := fChange hch
          rw [gS] at hCn
          exact absurd hCn (by decide)

/-- A port that has just entered `DCM_FLOATING` (timer and stored mask
cleared by the `DCM_INIT`/`DCM_FLOATING_DELAY` path). -/
def floatEntryPort : InPort := { InputPortDefault with State := .DCM_FLOATING }

/-- A steady environment presenting only the pin-6-high event. -/
def floatSteadyEnv : InEnv :=
  { pin5 := true, pin6 := true, inPin1 := 4000, colorReady := false,
    colorBuffer := [], latchedCmd := 0 }

/-- Witness for C2: under a constant pin-6-high signature the port floats
for exactly 35 ticks and then crosses to `DCM_CONNECTION`, with the mask
nonzero and the classification untouched. -/
theorem dcm_floating_debounce_witness :
    DCM_CONNECT_STABLE_DELAY / DCM_TIMER_RESOLUTION ≤ 35 ∧
    inputEvent floatSteadyEnv ≠ 0 ∧
    (inputRunN floatEntryPort (fun _ => floatSteadyEnv) 35).InDcm =
        floatEntryPort.InDcm :=
  ⟨(dcm_floating_debounce floatEntryPort (fun _ => floatSteadyEnv) 35
      rfl rfl rfl rfl (by decide) (by decide)).2.1,
   ((dcm_floating_debounce floatEntryPort (fun _ => floatSteadyEnv) 35
      rfl rfl rfl rfl (by decide) (by decide)).2.2.1 34 (by decide) (by decide)).2,
   ((dcm_floating_debounce floatEntryPort (fun _ => floatSteadyEnv) 35
      rfl rfl rfl rfl (by decide) (by decide)).2.2.2 35 (by decide)).1⟩

/-! ### C6 -/

/-- Exhaustive description of one `DCM_CONNECTED_WAITING_FOR_PIN1_TO_FLOAT`
tick: a pin-1 sample at or below the converted `IN1_NEAR_5V` threshold
resets the release timer, a floating sample counts it up, and the port
disconnects exactly when the incremented timer reaches the disconnect
steady-time window. -/
theorem waitPin1_step_facts (s : InPort) (e : InEnv)
    (hS : s.State = .DCM_CONNECTED_WAITING_FOR_PIN1_TO_FLOAT)
    (hEn : s.FSMEnabled = true) :
    (inputTick s e).InDcm = s.InDcm ∧
    (inputTick s e).InConn = s.InConn ∧
    (inputTick s e).FSMEnabled = true ∧
    (¬ e.inPin1 > VtoC IN1_NEAR_5V → inputTick s e = { s with Timer := 0 }) ∧
    (e.inPin1 > VtoC IN1_NEAR_5V →
        (s.Timer + 1 ≥ DCM_EVENT_STABLE_DELAY / DCM_TIMER_RESOLUTION →
            (inputTick s e).State = .DCM_INIT ∧
            (inputTick s e).Connected = false ∧
            (inputTick s e).InDcm = s.InDcm ∧
            (inputTick s e).InConn = s.InConn) ∧
        (s.Timer + 1 < DCM_EVENT_STABLE_DELAY / DCM_TIMER_RESOLUTION →
            inputTick s e = { s with Timer := s.Timer + 1 })) := by
  obtain ⟨V, Co, Cm, St, Ev, T, F, D, Cn, NC, NA, NCC, NCS⟩ := s
  simp only at hS hEn
  subst hS
  subst hEn
  refine ⟨?_, ?_, ?_, fun hlow => ?_, fun hfloat => ⟨fun hge => ?_, fun hlt => ?_⟩⟩
  · simp [inputTick, inputStateStep]
    split_ifs <;> rfl
  · simp [inputTick, inputStateStep]
    split_ifs <;> rfl
  · simp [inputTick, inputStateStep]
    split_ifs <;> rfl
  · simp [inputTick, inputStateStep, hlow]
  · norm_num [DCM_EVENT_STABLE_DELAY, IN_DISCONNECT_STEADY_TIME,
              DCM_TIMER_RESOLUTION] at hge
    simp [inputTick, inputStateStep, hfloat, hge, DCM_EVENT_STABLE_DELAY,
          IN_DISCONNECT_STEADY_TIME, DCM_TIMER_RESOLUTION]
  · norm_num [DCM_EVENT_STABLE_DELAY, IN_DISCONNECT_STEADY_TIME,
              DCM_TIMER_RESOLUTION] at hlt
    have hne10 : ¬ (10 ≤ T + 1) := by omega
    simp [inputTick, inputStateStep, hfloat, hne10, DCM_EVENT_STABLE_DELAY,
          IN_DISCONNECT_STEADY_TIME, DCM_TIMER_RESOLUTION]

/-- Release invariant of a `DCM_CONNECTED_WAITING_FOR_PIN1_TO_FLOAT` stay:
the timer counts exactly the trailing run of ticks whose pin-1 sample was
above the converted `IN1_NEAR_5V` threshold, and the connected flag and
classification stay untouched. -/
theorem waitPin1_run_inv (s0 : InPort) (es : Nat → InEnv)
    (hT0 : s0.Timer = 0) (hEn0 : s0.FSMEnabled = true) (n : Nat)
    (hFl : ∀ k, k < n →
        (inputRunN s0 es k).State = .DCM_CONNECTED_WAITING_FOR_PIN1_TO_FLOAT) :
    ∀ k, k < n →
      (inputRunN s0 es k).FSMEnabled = true ∧
      (inputRunN s0 es k).Timer ≤ k ∧
      (inputRunN s0 es k).Connected = s0.Connected ∧
      (inputRunN s0 es k).InDcm = s0.InDcm ∧
      (inputRunN s0 es k).InConn = s0.InConn ∧
      (∀ j, k - (inputRunN s0 es k).Timer ≤ j → j < k →
          (es j).inPin1 > VtoC IN1_NEAR_5V) := by
  intro k
  induction k with
  | zero =>
      intro _
      exact ⟨hEn0, le_of_eq hT0, rfl, rfl, rfl,
             fun j hj1 hj2 => absurd hj2 (by omega)⟩
  | succ k ih =>
      intro hk1
      have hk : k < n := Nat.lt_of_succ_lt hk1
      obtain ⟨iEn, iT, iCo, iD, iC, iWin⟩ := ih hk
      have hSk := hFl k hk
      obtain ⟨fD, fC, fEn, fLow, fFloat⟩ :=
        waitPin1_step_facts (inputRunN s0 es k) (es k) hSk iEn
      have hrun : inputRunN s0 es (k + 1) = inputTick (inputRunN s0 es k) (es k) := rfl
      by_cases hc : (es k).inPin1 > VtoC IN1_NEAR_5V
      · obtain ⟨fExit, fStay⟩ := fFloat hc
        have hlt : (inputRunN s0 es k).Timer + 1 <
            DCM_EVENT_STABLE_DELAY / DCM_TIMER_RESOLUTION := by
          by_contra hge
          push_neg at hge
          have hx := (fExit hge).1
          have hfl1 := hFl (k + 1) hk1
          rw [hrun] at hfl1
          rw [hx] at hfl1
          exact absurd hfl1 (by decide)
        have hst := fStay hlt
        rw [hrun, hst]
        refine ⟨iEn, by simp; omega, by simp [iCo], by simp [iD], by simp [iC],
                fun j hj1 hj2 => ?_⟩
        simp only at hj1
        rcases Nat.lt_or_ge j k with hjk | hjk
        · exact iWin j (by omega) hjk
        · have hjeq : j = k := by omega
          subst hjeq
          exact hc
      · have hst := fLow hc
        rw [hrun, hst]
        refine ⟨iEn, by simp, by simp [iCo], by simp [iD], by simp [iC],
                fun j hj1 hj2 => ?_⟩
        simp only at hj1
        exact absurd hj2 (by omega)

/-- C6: entering `DCM_PIN1_LOADED`, the pin-1 reading is classified against
exactly two thresholds — above the converted `IN1_NEAR_PIN2` gives the Error
pair, below the converted `IN1_NEAR_GND` gives the UART connection, anything
between gives the generic dumb-analog connection — and in all three cases
the port is marked Connected and enters the wait-for-release state, from
which it disconnects only after the pin-1 reading has stayed above the
converted `IN1_NEAR_5V` threshold for the full
`DCM_EVENT_STABLE_DELAY / DCM_TIMER_RESOLUTION` (= 10 tick) window. -/
theorem dcm_pin1_loaded_classification :
    (∀ (s : InPort) (e : InEnv), s.State = .DCM_PIN1_LOADED →
        s.FSMEnabled = true →
        (inputTick s e).Connected = true ∧
        (inputTick s e).State = .DCM_CONNECTED_WAITING_FOR_PIN1_TO_FLOAT ∧
        (inputTick s e).Timer = 0 ∧
        (e.inPin1 > VtoC IN1_NEAR_PIN2 →
            (inputTick s e).InDcm = .TYPE_ERROR ∧
            (inputTick s e).InConn = .CONN_ERROR) ∧
        (e.inPin1 < VtoC IN1_NEAR_GND →
            (inputTick s e).InDcm = .TYPE_UNKNOWN ∧
            (inputTick s e).InConn = .CONN_INPUT_UART) ∧
        (¬ e.inPin1 > VtoC IN1_NEAR_PIN2 → ¬ e.inPin1 < VtoC IN1_NEAR_GND →
            (inputTick s e).InDcm = .TYPE_UNKNOWN ∧
            (inputTick s e).InConn = .CONN_INPUT_DUMB)) ∧
    (∀ (s0 : InPort) (es : Nat → InEnv) (n : Nat),
        s0.State = .DCM_CONNECTED_WAITING_FOR_PIN1_TO_FLOAT → s0.Timer = 0 →
        s0.FSMEnabled = true →
        (∀ k, k < n → (inputRunN s0 es k).State =
            .DCM_CONNECTED_WAITING_FOR_PIN1_TO_FLOAT) →
        (inputRunN s0 es n).State = .DCM_INIT →
        (inputRunN s0 es n).Connected = false ∧
        DCM_EVENT_STABLE_DELAY / DCM_TIMER_RESOLUTION ≤ n ∧
        (∀ j, n - DCM_EVENT_STABLE_DELAY / DCM_TIMER_RESOLUTION ≤ j → j < n →
            (es j).inPin1 > VtoC IN1_NEAR_5V) ∧
        (∀ k, k < n → (inputRunN s0 es k).Connected = s0.Connected) ∧
        (∀ k, k ≤ n → (inputRunN s0 es k).InDcm = s0.InDcm ∧
            (inputRunN s0 es k).InConn = s0.InConn)) := by
  have hW : DCM_EVENT_STABLE_DELAY / DCM_TIMER_RESOLUTION = 10 := rfl
  constructor
  · intro s e hS hEn
    have hgnd : VtoC IN1_NEAR_GND < VtoC IN1_NEAR_PIN2 := by decide
    obtain ⟨V, Co, Cm, St, Ev, T, F, D, Cn, NC, NA, NCC, NCS⟩ := s
    simp only at hS hEn
    subst hS
    subst hEn
    refine ⟨?_, ?_, ?_, fun h2 => ?_, fun hg => ?_, fun h2 hg => ?_⟩
    · simp [inputTick, inputStateStep]
      try split_ifs <;> rfl
    · simp [inputTick, inputStateStep]
      try split_ifs <;> rfl
    · simp [inputTick, inputStateStep]
      try split_ifs <;> rfl
    · simp [inputTick, inputStateStep, h2]
    · have h2 : ¬ e.inPin1 > VtoC IN1_NEAR_PIN2 := by
        simp only [VtoC, IN1_NEAR_GND, IN1_NEAR_PIN2, ADC_RES, ADC_REF] at hg ⊢
        omega
      simp [inputTick, inputStateStep, h2, hg]
    · simp [inputTick, inputStateStep, h2, hg]
  · intro s0 es n hS0 hT0 hEn0 hFl hExit
    cases n with
    | zero =>
        rw [show inputRunN s0 es 0 = s0 from rfl, hS0] at hExit
        exact absurd hExit (by decide)
    | succ m =>
        have hInv := waitPin1_run_inv s0 es hT0 hEn0 (m + 1) hFl
        obtain ⟨iEn, iT, iCo, iD, iC, iWin⟩ := hInv m (Nat.lt_succ_self m)
        have hSm := hFl m (Nat.lt_succ_self m)
        obtain ⟨fD, fC, fEn, fLow, fFloat⟩ :=
          waitPin1_step_facts (inputRunN s0 es m) (es m) hSm iEn
        have hrun : inputRunN s0 es (m + 1) =
            inputTick (inputRunN s0 es m) (es m) := rfl
        rw [hrun] at hExit
        by_cases hc : (es m).inPin1 > VtoC IN1_NEAR_5V
        · obtain ⟨fExit, fStay⟩ := fFloat hc
          have hge : (inputRunN s0 es m).Timer + 1 ≥
              DCM_EVENT_STABLE_DELAY / DCM_TIMER_RESOLUTION := by
            by_contra hlt
            push_neg at hlt
            have hst := fStay hlt
            rw [hst] at hExit
            simp only at hExit
            rw [hSm] at hExit
            exact absurd hExit (by decide)
          obtain ⟨xSt, xCo, xD, xC⟩ := fExit hge
          rw [hW] at hge
          refine ⟨by rw [hrun]; exact xCo, by rw [hW]; omega,
                  fun j hj1 hj2 => ?_, fun k hk => (hInv k hk).2.2.1,
                  fun k hk => ?_⟩
          · rw [hW] at hj1
            rcases Nat.lt_or_ge j m with hjk | hjk
            · exact iWin j (by omega) hjk
            · have hjeq : j = m := by omega
              subst hjeq
              exact hc
          · rcases Nat.lt_or_ge k (m + 1) with hkm | hkm
            · obtain ⟨_, _, _, kD, kC, _⟩ := hInv k hkm
              exact ⟨kD, kC⟩
            · have hkeq : k = m + 1 := by omega
              subst hkeq
              rw [hrun, xD, xC]
              exact ⟨iD, iC⟩
        · have hst := fLow hc
          rw [hst] at hExit
          simp only at hExit
          rw [hSm] at hExit
          exact absurd hExit (by decide)

/-- A connected port waiting for pin 1 to float back. -/
def waitPin1Port : InPort :=
  { InputPortDefault with
      State := .DCM_CONNECTED_WAITING_FOR_PIN1_TO_FLOAT,
      Connected := true, InDcm := .TYPE_UNKNOWN, InConn := .CONN_INPUT_DUMB }

/-- An environment whose pin-1 sample is back above the converted
`IN1_NEAR_5V` threshold (port released). -/
def pin1FloatingEnv : InEnv :=
  { pin5 := true, pin6 := false, inPin1 := 4000, colorReady := false,
    colorBuffer := [], latchedCmd := 0 }

/-- Witness for C6: a dumb-band reading (1000 counts) classifies as the
generic dumb-analog connection and connects the port; with pin 1 floating
the port disconnects after exactly the 10-tick window, its classification
intact until the end. -/
theorem dcm_pin1_loaded_classification_witness :
    ((inputTick { InputPortDefault with State := .DCM_PIN1_LOADED }
        { pin1FloatingEnv with inPin1 := 1000 }).Connected = true ∧
     (inputTick { InputPortDefault with State := .DCM_PIN1_LOADED }
        { pin1FloatingEnv with inPin1 := 1000 }).InDcm = .TYPE_UNKNOWN ∧
     (inputTick { InputPortDefault with State := .DCM_PIN1_LOADED }
        { pin1FloatingEnv with inPin1 := 1000 }).InConn = .CONN_INPUT_DUMB) ∧
    ((inputRunN waitPin1Port (fun _ => pin1FloatingEnv) 10).Connected = false ∧
     DCM_EVENT_STABLE_DELAY / DCM_TIMER_RESOLUTION ≤ 10 ∧
     (inputRunN waitPin1Port (fun _ => pin1FloatingEnv) 10).InDcm =
        waitPin1Port.InDcm) := by
  have h1 := (dcm_pin1_loaded_classification.1
      { InputPortDefault with State := .DCM_PIN1_LOADED }
      { pin1FloatingEnv with inPin1 := 1000 } rfl rfl)
  have h2 := dcm_pin1_loaded_classification.2 waitPin1Port
      (fun _ => pin1FloatingEnv) 10 rfl rfl rfl (by decide) (by decide)
  exact ⟨⟨h1.1, (h1.2.2.2.2.2 (by decide) (by decide)).1,
          (h1.2.2.2.2.2 (by decide) (by decide)).2⟩,
         h2.1, h2.2.1, (h2.2.2.2.2 10 (by omega)).1⟩

/-! ### C8 -/

theorem adcBody1_preserves (st : AdcState) (e : AdcEnv) (i p : Nat) :
    (adcBody1 st e i p).Color = st.Color ∧
    (adcBody1 st e i p).NxtColorActive = st.NxtColorActive := by
  dsimp only [adcBody1]
  split_ifs <;> exact ⟨rfl, rfl⟩

theorem adcBody2_preserves (st : AdcState) (e : AdcEnv) (i p : Nat) :
    (adcBody2 st e i p).Color = st.Color ∧
    (adcBody2 st e i p).NxtColorActive = st.NxtColorActive := by
  dsimp only [adcBody2]
  split_ifs <;> exact ⟨rfl, rfl⟩

theorem adcLoop1_preserves (e : AdcEnv) (fuel : Nat) :
    ∀ (st : AdcState) (p i : Nat),
      (adcLoop1 e fuel st p i).1.Color = st.Color ∧
      (adcLoop1 e fuel st p i).1.NxtColorActive = st.NxtColorActive := by
  induction fuel with
  | zero => exact fun st p i => ⟨rfl, rfl⟩
  | succ f ih =>
      intro st p i
      obtain ⟨hb1, hb2⟩ := adcBody1_preserves st e i p
      by_cases hc : NextTime1.getD (p + 1 - 1) 0 = 0
      · simp only [adcLoop1, hc, if_true]
        obtain ⟨hl1, hl2⟩ := ih (adcBody1 st e i p) (p + 1) (i + 1)
        exact ⟨hl1.trans hb1, hl2.trans hb2⟩
      · simp only [adcLoop1, hc, if_false]
        exact ⟨hb1, hb2⟩

theorem adcLoop2_preserves (e : AdcEnv) (fuel : Nat) :
    ∀ (st : AdcState) (p i : Nat),
      (adcLoop2 e fuel st p i).1.Color = st.Color ∧
      (adcLoop2 e fuel st p i).1.NxtColorActive = st.NxtColorActive := by
  induction fuel with
  | zero => exact fun st p i => ⟨rfl, rfl⟩
  | succ f ih =>
      intro st p i
      obtain ⟨hb1, hb2⟩ := adcBody2_preserves st e i p
      by_cases hc : NextTime2.getD (p + 1 - 1) 0 = 0
      · simp only [adcLoop2, hc, if_true]
        obtain ⟨hl1, hl2⟩ := ih (adcBody2 st e i p) (p + 1) (i + 1)
        exact ⟨hl1.trans hb1, hl2.trans hb2⟩
      · simp only [adcLoop2, hc, if_false]
        exact ⟨hb1, hb2⟩

/-- C8: every scheduler tick runs exactly the schedule selected by the
`Color` flag at its entry (scheme 2 when set, scheme 1 otherwise), and the
flag itself is re-evaluated — from the OR of the ports' active-color-session
flags — only on a tick whose schedule pointer wraps to zero, i.e. at the
boundary between two full schedule passes; on every mid-pass tick `Color` is
unchanged. -/
theorem adc_schedule_boundary (s : AdcState) (e : AdcEnv) :
    (adcTick s e).2 = s.Color ∧
    ((adcTick s e).1.NxtPointer ≠ 0 → (adcTick s e).1.Color = s.Color) ∧
    ((adcTick s e).1.NxtPointer = 0 →
        (adcTick s e).1.Color = s.NxtColorActive.any id) := by
  have l1 := adcLoop1_preserves e SCHEMESIZE1
  have l2 := adcLoop2_preserves e SCHEMESIZE2
  by_cases hC : s.Color <;> by_cases hP : s.NxtPointer = 0 <;>
    simp_all [adcTick, adcEndOfPass] <;>
    split_ifs <;>
    simp_all

/-- An SPI environment returning constant zero samples. -/
def adcZeroEnv : AdcEnv := { spi := fun _ => 0 }

/-- A scheduler state at the start of a plain-scheme pass, with one port
holding an active color session. -/
def adcMidState : AdcState :=
  { Color := false, NxtPointer := 0, InputPoint1 := 8, InputPoint2 := 0,
    NxtColorActive := [true, false, false, false],
    Nxtcolor := List.replicate 4 false, NxtcolorCmd := List.replicate 4 0,
    NxtcolorLatchedCmd := List.replicate 4 0, pInputs := List.replicate 16 0,
    NxtColADRaw := List.replicate 4 (List.replicate 4 0),
    Updated := List.replicate 4 false, PreemptMilliSeconds := 0 }

/-- The same scheduler state at the last entry of the plain scheme. -/
def adcLastState : AdcState := { adcMidState with NxtPointer := 9 }

/-- Witness for C8: a tick starting a pass leaves the pointer mid-pass
(at 4) and `Color` untouched; the tick consuming the last entry wraps the
pointer and re-evaluates `Color` from the active-session flags. -/
theorem adc_schedule_boundary_witness :
    (adcTick adcMidState adcZeroEnv).2 = adcMidState.Color ∧
    (adcTick adcMidState adcZeroEnv).1.Color = adcMidState.Color ∧
    (adcTick adcLastState adcZeroEnv).1.Color =
        adcLastState.NxtColorActive.any id :=
  ⟨(adc_schedule_boundary adcMidState adcZeroEnv).1,
   (adc_schedule_boundary adcMidState adcZeroEnv).2.1 (by decide),
   (adc_schedule_boundary adcLastState adcZeroEnv).2.2 (by decide)⟩

end DAnalog
